import Mathlib

/-!
Verification of the geospatial address-resolution pipeline
(`src/geospatial_nlp`): pincode validation, the contextual geocoder's
fallback tiers, landmark matching, location prediction and the two
confidence scorers, shallowly embedded in Lean.

Conventions of the embedding:
* Python `float` arithmetic is modelled by exact rationals (`ℚ`); the
  trigonometric parts of the location predictor are modelled over `ℝ`.
* Python `str` is modelled by `String`; inputs are taken to be ASCII, where
  `unicodedata.normalize("NFKC", ·)` is the identity and `str.lower` is
  per-character ASCII lowering.
* Python dictionaries with a fixed key set are modelled by structures;
  lookup tables are association lists in the source's insertion order
  (Python dicts iterate in insertion order).
* A Python function that can return `None` is modelled with `Option`.
-/

namespace Spec2Proof

/-! ## Python string primitives -/

/-- The characters matched by Python's `\s` (ASCII range). -/
def pyIsSpace (c : Char) : Bool :=
  c = ' ' || c = '\t' || c = '\n' || c = '\r' || c = '\x0b' || c = '\x0c'

/-- A character of Python's `\w` class (ASCII range): alphanumeric or underscore. -/
def pyWordChar (c : Char) : Bool :=
  c.isAlphanum || c = '_'

/-- Python `str.lower` on ASCII text. -/
def pyLower (s : String) : String :=
  ⟨s.data.map Char.toLower⟩

/-- Python `str.upper` on ASCII text. -/
def pyUpper (s : String) : String :=
  ⟨s.data.map Char.toUpper⟩

/-- Python `str.strip()` (strip leading and trailing whitespace). -/
def pyStripWs (s : String) : String :=
  ⟨((s.data.dropWhile pyIsSpace).reverse.dropWhile pyIsSpace).reverse⟩

/-- Python substring test `needle in hay` on lists of characters. -/
def listContainsSub (hay needle : List Char) : Bool :=
  match hay with
  | [] => needle.isEmpty
  | _ :: t => needle.isPrefixOf hay || listContainsSub t needle

/-- Python substring test `needle in hay`. -/
def strContainsSub (hay needle : String) : Bool :=
  listContainsSub hay.data needle.data

/-! ## `utils.validate_pincode` (src/geospatial_nlp/utils.py lines 118-135) -/

/-- The `re.sub(r'[\s\-]', '', pincode)` step of `validate_pincode`:
remove all whitespace and hyphens. -/
def stripSpaceHyphen (s : String) : String :=
  ⟨s.data.filter (fun c => !(pyIsSpace c || c = '-'))⟩

/-- Exact match of the regex `[1-9]\d{5}`: exactly six digits, the first
in `1`-`9`.  This is the matching predicate named by the claim, written
from the claim's words. -/
def pincodeRegexFull (s : String) : Bool :=
  match s.data with
  | c :: rest => decide ('1' ≤ c) && decide (c ≤ '9') && decide (rest.length = 5)
      && rest.all Char.isDigit
  | [] => false

/-- `utils.validate_pincode`: falsy input is rejected, then whitespace and
hyphens are removed, then the remainder must match `^[1-9]\d{5}$` in full.
(After stripping, the string contains no newline, so the `$` of `re.match`
is a plain end anchor.) -/
def validate_pincode (s : String) : Bool :=
  if s = "" then false
  else pincodeRegexFull (stripSpaceHyphen s)

/-! ## `utils.is_within_india` (src/geospatial_nlp/utils.py lines 101-111) -/

/-- Bounding-box check: latitude in [6, 36] and longitude in [68, 98]. -/
def is_within_india (lat lon : ℚ) : Bool :=
  decide ((6 : ℚ) ≤ lat) && decide (lat ≤ 36) && decide ((68 : ℚ) ≤ lon)
    && decide (lon ≤ 98)

/-! ## Geocoder data model (src/geospatial_nlp/geocoder.py) -/

/-- `GeoResult` of geocoder.py (the `raw_response` field, which is only
populated on the external-API path we abstract, is omitted). -/
structure GeoResult where
  latitude : ℚ
  longitude : ℚ
  source : String
  precision : String
  uncertaintyKm : ℚ
deriving DecidableEq, Repr

/-- `MAJOR_CITY_COORDS` of geocoder.py, in source (= dict iteration) order. -/
def MAJOR_CITY_COORDS : List (String × ℚ × ℚ) :=
  [ ("mumbai", 19.0760, 72.8777)
  , ("delhi", 28.6139, 77.2090)
  , ("new delhi", 28.6139, 77.2090)
  , ("bengaluru", 12.9716, 77.5946)
  , ("bangalore", 12.9716, 77.5946)
  , ("chennai", 13.0827, 80.2707)
  , ("kolkata", 22.5726, 88.3639)
  , ("hyderabad", 17.3850, 78.4867)
  , ("pune", 18.5204, 73.8567)
  , ("ahmedabad", 23.0225, 72.5714)
  , ("surat", 21.1702, 72.8311)
  , ("jaipur", 26.9124, 75.7873)
  , ("lucknow", 26.8467, 80.9462)
  , ("kanpur", 26.4499, 80.3319)
  , ("nagpur", 21.1458, 79.0882)
  , ("indore", 22.7196, 75.8577)
  , ("thane", 19.2183, 72.9781)
  , ("bhopal", 23.2599, 77.4126)
  , ("visakhapatnam", 17.6868, 83.2185)
  , ("patna", 25.5941, 85.1376)
  , ("vadodara", 22.3072, 73.1812)
  , ("ghaziabad", 28.6692, 77.4538)
  , ("ludhiana", 30.9010, 75.8573)
  , ("agra", 27.1767, 78.0081)
  , ("nashik", 19.9975, 73.7898)
  , ("varanasi", 25.3176, 82.9739)
  , ("chandigarh", 30.7333, 76.7794)
  , ("gurugram", 28.4595, 77.0266)
  , ("gurgaon", 28.4595, 77.0266)
  , ("noida", 28.5355, 77.3910)
  , ("coimbatore", 11.0168, 76.9558)
  , ("kochi", 9.9312, 76.2673)
  , ("thiruvananthapuram", 8.5241, 76.9366)
  , ("mysuru", 12.2958, 76.6394)
  , ("mysore", 12.2958, 76.6394)
  , ("mangaluru", 12.9141, 74.8560)
  , ("mangalore", 12.9141, 74.8560)
  , ("vijayawada", 16.5062, 80.6480)
  , ("jodhpur", 26.2389, 73.0243)
  , ("udaipur", 24.5854, 73.7125)
  , ("amritsar", 31.6340, 74.8723)
  , ("guwahati", 26.1445, 91.7362)
  , ("bhubaneswar", 20.2961, 85.8245)
  , ("ranchi", 23.3441, 85.3096)
  , ("dehradun", 30.3165, 78.0322)
  , ("shimla", 31.1048, 77.1734) ]

/-- `STATE_CENTROIDS` of geocoder.py. -/
def STATE_CENTROIDS : List (String × ℚ × ℚ) :=
  [ ("MH", 19.6633, 75.3003)
  , ("DL", 28.6139, 77.2090)
  , ("KA", 15.3173, 75.7139)
  , ("TN", 11.1271, 78.6569)
  , ("UP", 27.1303, 80.8597)
  , ("GJ", 22.2587, 71.1924)
  , ("RJ", 27.0238, 74.2179)
  , ("WB", 22.9868, 87.8550)
  , ("AP", 15.9129, 79.7400)
  , ("TS", 18.1124, 79.0193)
  , ("KL", 10.8505, 76.2711)
  , ("MP", 23.4733, 77.9479)
  , ("BR", 25.0961, 85.3131)
  , ("PB", 31.1471, 75.3412)
  , ("HR", 29.0588, 76.0856)
  , ("OR", 20.9517, 85.0985)
  , ("JH", 23.6102, 85.2799)
  , ("CG", 21.2787, 81.8661)
  , ("UK", 30.0668, 79.0193)
  , ("HP", 31.1048, 77.1734)
  , ("AS", 26.2006, 92.9376)
  , ("GA", 15.2993, 74.1240) ]

/-- `utils._get_fallback_pincodes`: the built-in pincode-centroid table used
when `data/pincode_centroids.json` is absent (the repository ships no data
directory, so this is the table `load_pincode_centroids` returns). -/
def fallbackPincodes : List (String × ℚ × ℚ) :=
  [ ("400001", 18.9398, 72.8354)
  , ("400069", 19.1136, 72.8697)
  , ("400028", 19.0178, 72.8478)
  , ("110001", 28.6358, 77.2245)
  , ("110020", 28.5672, 77.2100)
  , ("560001", 12.9767, 77.5713)
  , ("560034", 12.9352, 77.6245)
  , ("600001", 13.0878, 80.2785)
  , ("500001", 17.3850, 78.4867)
  , ("700001", 22.5726, 88.3639)
  , ("411001", 18.5204, 73.8567) ]

/-- Per-state record of `utils._get_fallback_states`. -/
structure StateInfo where
  name : String
  aliases : List String
  capital : String
deriving DecidableEq, Repr

/-- `utils._get_fallback_states`: the built-in state table used when
`data/indian_states.json` is absent (the repository ships no data
directory, so this is the table `load_indian_states` returns). -/
def fallbackStates : List (String × StateInfo) :=
  [ ("MH", ⟨"Maharashtra", ["mh", "maha", "maharashtra"], "Mumbai"⟩)
  , ("DL", ⟨"Delhi", ["dl", "delhi", "new delhi", "ncr"], "New Delhi"⟩)
  , ("KA", ⟨"Karnataka", ["ka", "karnataka", "ktk"], "Bengaluru"⟩)
  , ("TN", ⟨"Tamil Nadu", ["tn", "tamilnadu", "tamil nadu"], "Chennai"⟩)
  , ("UP", ⟨"Uttar Pradesh", ["up", "uttar pradesh"], "Lucknow"⟩)
  , ("GJ", ⟨"Gujarat", ["gj", "gujarat", "guj"], "Gandhinagar"⟩)
  , ("RJ", ⟨"Rajasthan", ["rj", "rajasthan", "raj"], "Jaipur"⟩)
  , ("WB", ⟨"West Bengal", ["wb", "west bengal", "bengal"], "Kolkata"⟩)
  , ("AP", ⟨"Andhra Pradesh", ["ap", "andhra", "andhra pradesh"], "Amaravati"⟩)
  , ("TS", ⟨"Telangana", ["ts", "telangana", "tg"], "Hyderabad"⟩)
  , ("KL", ⟨"Kerala", ["kl", "kerala"], "Thiruvananthapuram"⟩)
  , ("MP", ⟨"Madhya Pradesh", ["mp", "madhya pradesh"], "Bhopal"⟩)
  , ("BR", ⟨"Bihar", ["br", "bihar"], "Patna"⟩)
  , ("PB", ⟨"Punjab", ["pb", "punjab"], "Chandigarh"⟩)
  , ("HR", ⟨"Haryana", ["hr", "haryana"], "Chandigarh"⟩) ]

/-- Association-list lookup modelling `dict.get` on a coordinate table. -/
def lookupTbl (tbl : List (String × ℚ × ℚ)) (k : String) : Option (ℚ × ℚ) :=
  (tbl.find? (fun e => e.1 = k)).map (·.2)

/-! ## Geocoder tiers (src/geospatial_nlp/geocoder.py lines 212-439) -/

/-- `ContextualGeocoder._geocode_by_pincode`: exact centroid lookup
(uncertainty 5 km, precision "locality"), else the first stored pincode
sharing the query's first three characters (uncertainty 20 km,
precision "city"), else `None`. -/
def _geocode_by_pincode (tbl : List (String × ℚ × ℚ)) (pincode : String) :
    Option GeoResult :=
  match lookupTbl tbl pincode with
  | some (la, lo) => some ⟨la, lo, "pincode", "locality", 5⟩
  | none =>
    if 3 ≤ pincode.length then
      match tbl.find? (fun e => (pincode.data.take 3).isPrefixOf e.1.data) with
      | some e => some ⟨e.2.1, e.2.2, "pincode_prefix", "city", 20⟩
      | none => none
    else none

/-- `ContextualGeocoder._geocode_by_city`: major-city centroid lookup
(uncertainty 15 km, precision "city"). -/
def _geocode_by_city (city : String) : Option GeoResult :=
  match lookupTbl MAJOR_CITY_COORDS (pyStripWs (pyLower city)) with
  | some (la, lo) => some ⟨la, lo, "city", "city", 15⟩
  | none => none

/-- `ContextualGeocoder._geocode_by_state`: state centroid lookup
(uncertainty 150 km, precision "state"). -/
def _geocode_by_state (stateCode : String) : Option GeoResult :=
  match lookupTbl STATE_CENTROIDS (pyUpper stateCode) with
  | some (la, lo) => some ⟨la, lo, "state", "state", 150⟩
  | none => none

/-- `ContextualGeocoder._extract_city_from_text`: the first
`MAJOR_CITY_COORDS` key occurring as a substring of the lowered text. -/
def _extract_city_from_text (text : String) : Option String :=
  (MAJOR_CITY_COORDS.find? (fun e => strContainsSub (pyLower text) e.1)).map (·.1)

/-- `ContextualGeocoder._extract_state_from_text`: the first state whose
full name is a substring of the lowered text, or one of whose aliases
occurs space-delimited in the space-padded lowered text. -/
def _extract_state_from_text (states : List (String × StateInfo)) (text : String) :
    Option String :=
  (states.find? (fun e =>
      strContainsSub (pyLower text) (pyLower e.2.name) ||
      e.2.aliases.any (fun a =>
        strContainsSub (" " ++ pyLower text ++ " ") (" " ++ pyLower a ++ " ")))).map (·.1)

/-- `ContextualGeocoder._get_india_fallback`. -/
def _get_india_fallback : GeoResult :=
  ⟨20.5937, 78.9629, "country_fallback", "country", 1500⟩

/-- Python truthiness of an optional string: `None` and `""` are falsy. -/
def optTruthy (o : Option String) : Option String :=
  match o with
  | some s => if s = "" then none else some s
  | none => none

/-- Python `a or b` on optional strings. -/
def pyOrStr (a b : Option String) : Option String :=
  match optTruthy a with
  | some s => some s
  | none => b

/-- `ContextualGeocoder.geocode`: tries pincode (exact then prefix), city
(hint or detected), state (hint or detected), the external API when
enabled (abstracted by `apiFn`, which stands for `_geocode_by_api`
including its in-India filtering), then the country fallback.  The method
returns `result.to_dict()`; we return the `GeoResult` itself, whose fields
are exactly the serialized ones. -/
def geocode (tbl : List (String × ℚ × ℚ)) (states : List (String × StateInfo))
    (useApi : Bool) (apiFn : String → Option GeoResult)
    (normalizedText : String) (pincode stateHint cityHint : Option String) :
    GeoResult :=
  let tierPin : Option GeoResult :=
    match optTruthy pincode with
    | some p => if validate_pincode p then _geocode_by_pincode tbl p else none
    | none => none
  match tierPin with
  | some r => r
  | none =>
    let city := pyOrStr cityHint (_extract_city_from_text normalizedText)
    match city.bind _geocode_by_city with
    | some r => r
    | none =>
      let st := pyOrStr stateHint (_extract_state_from_text states normalizedText)
      match st.bind _geocode_by_state with
      | some r => r
      | none =>
        match (if useApi then apiFn normalizedText else none) with
        | some r => r
        | none => _get_india_fallback

/-- The resolution order as the claim states it (strict precedence, first
successful tier wins): exact pincode when the given pincode is valid and
present in the centroid table; otherwise the 3-digit-prefix result with
uncertainty 20 km and precision "city" when some stored pincode shares the
prefix; otherwise city (hint or text); otherwise state (hint or text);
otherwise the external API when enabled; otherwise the country fallback. -/
def geocodeSpec (tbl : List (String × ℚ × ℚ)) (states : List (String × StateInfo))
    (useApi : Bool) (apiFn : String → Option GeoResult)
    (normalizedText : String) (pincode stateHint cityHint : Option String) :
    GeoResult :=
  let rest : GeoResult :=
    match (pyOrStr cityHint (_extract_city_from_text normalizedText)).bind
        _geocode_by_city with
    | some r => r
    | none =>
      match (pyOrStr stateHint
          (_extract_state_from_text states normalizedText)).bind _geocode_by_state with
      | some r => r
      | none =>
        match (if useApi then apiFn normalizedText else none) with
        | some r => r
        | none => _get_india_fallback
  match optTruthy pincode with
  | some p =>
    if validate_pincode p then
      match lookupTbl tbl p with
      | some (la, lo) => ⟨la, lo, "pincode", "locality", 5⟩
      | none =>
        match tbl.find? (fun e => (p.data.take 3).isPrefixOf e.1.data) with
        | some e => ⟨e.2.1, e.2.2, "pincode_prefix", "city", 20⟩
        | none => rest
    else rest
  | none => rest

/-! ## Landmark matcher (src/geospatial_nlp/landmark_matcher.py)

The matcher's fuzzy-string strategy (`_match_with_fuzzy`, the path taken
when sentence-transformers is unavailable or `use_embeddings=False`) is
embedded; the scorer `rapidfuzz.fuzz.token_sort_ratio` is also embedded
(`tokenSortScore`), and the structural theorems are proved for an
arbitrary scorer `sim`. -/

/-- A landmark record as produced by `LandmarkMatcher._load_landmarks`
(whose `city` field was lowercased and stripped at load time). -/
structure Landmark where
  name : String
  type : String
  latitude : ℚ
  longitude : ℚ
  city : String
deriving DecidableEq, Repr

/-- `MatchResult.to_dict()` of landmark_matcher.py: the serialized match.
The `similarity` field carries `round(similarity, 4)` as in `to_dict`. -/
structure MatchResult where
  inputLandmark : String
  matchedName : String
  lat : ℚ
  lng : ℚ
  similarity : ℚ
  landmarkType : String
  city : String
deriving DecidableEq, Repr

/-- `round(x, k)` for nonnegative `k`.  Python rounds half to even while
`round` on `ℚ` rounds half up; the two agree except when `x * 10 ^ k` is
an exact odd multiple of 1/2, which never occurs in the values these
claims evaluate. -/
def roundTo (k : ℕ) (x : ℚ) : ℚ :=
  (round (x * 10 ^ k) : ℤ) / 10 ^ k

/-- Python `str.split()`: split on whitespace runs, discarding empties.
`cur` is the reversed current token. -/
def splitWsAux (cur : List Char) : List Char → List String
  | [] => if cur.isEmpty then [] else [⟨cur.reverse⟩]
  | c :: rest =>
    if pyIsSpace c then
      if cur.isEmpty then splitWsAux [] rest
      else ⟨cur.reverse⟩ :: splitWsAux [] rest
    else splitWsAux (c :: cur) rest

/-- Python `str.split()`. -/
def splitWs (s : String) : List String :=
  splitWsAux [] s.data

/-- One row update of the longest-common-subsequence dynamic program:
`prev` is the previous row from column `j-1` on, `left` the value just
computed in the current row. -/
def lcsRowAux (c : Char) : List Char → List Nat → Nat → List Nat
  | [], _, _ => []
  | b :: bs, prev, left =>
    let diag := prev.headD 0
    let up := prev.tail.headD 0
    let cur := if c = b then diag + 1 else max up left
    cur :: lcsRowAux c bs prev.tail cur

/-- Length of a longest common subsequence of two character lists. -/
def lcsLength (a b : List Char) : Nat :=
  (a.foldl (fun row c => 0 :: lcsRowAux c b row 0) (List.replicate (b.length + 1) 0)).getLastD 0

/-- `rapidfuzz.fuzz.ratio`: the normalized InDel similarity scaled to
[0, 100]; the InDel distance is `|a| + |b| - 2 * lcs(a, b)`, so the score
is `100 * 2 * lcs / (|a| + |b|)`, and 100 when both strings are empty. -/
def fuzzRatioScore (a b : String) : ℚ :=
  let l1 := a.data.length
  let l2 := b.data.length
  if l1 + l2 = 0 then 100
  else 100 * (2 * (lcsLength a.data b.data : ℚ)) / ((l1 : ℚ) + (l2 : ℚ))

/-- Lexicographic comparison of character lists by code point, as Python
compares strings. -/
def charListLe : List Char → List Char → Bool
  | [], _ => true
  | _ :: _, [] => false
  | a :: as, b :: bs => if a = b then charListLe as bs else decide (a < b)

/-- Python `sep.join(parts)`. -/
def joinWith (sep : String) : List String → String
  | [] => ""
  | [s] => s
  | s :: rest => s ++ sep ++ joinWith sep rest

/-- The token-sort preprocessing of `fuzz.token_sort_ratio`: split on
whitespace, sort the tokens (a stable sort, as Python's `sorted`),
re-join with single spaces. -/
def sortJoinTokens (s : String) : String :=
  joinWith " "
    ((splitWs s).insertionSort (fun a b => charListLe a.data b.data = true))

/-- `rapidfuzz.fuzz.token_sort_ratio`. -/
def tokenSortScore (a b : String) : ℚ :=
  fuzzRatioScore (sortJoinTokens a) (sortJoinTokens b)

/-- The candidate set of `LandmarkMatcher.match_landmark`: when a truthy
city is given, the gazetteer entries whose (load-time lowered) city equals
the lowered scope — except that an empty restriction falls back to the
whole gazetteer; with no city, the whole gazetteer. -/
def matchCandidates (gaz : List Landmark) (city : Option String) : List Landmark :=
  match optTruthy city with
  | some c =>
    let cs := gaz.filter (fun lm => lm.city = pyLower c)
    if cs.isEmpty then gaz else cs
  | none => gaz

/-- `LandmarkMatcher._match_with_fuzzy` with scorer `sim` standing for
`fuzz.token_sort_ratio` (scores on the 0-100 scale):
`rapidfuzz.process.extract` scores every candidate, returns the best
`topK` in descending score order, and the loop keeps those with
`score / 100 ≥ threshold`, serializing each via `MatchResult.to_dict`. -/
def _match_with_fuzzy (sim : String → String → ℚ) (phrase : String)
    (candidates : List Landmark) (topK : ℕ) (threshold : ℚ) : List MatchResult :=
  let scored := candidates.map (fun c => (c, sim phrase c.name))
  let ranked := scored.insertionSort (fun a b => b.2 ≤ a.2)
  ((ranked.take topK).filter (fun p => decide (threshold ≤ p.2 / 100))).map (fun p =>
    { inputLandmark := phrase
      matchedName := p.1.name
      lat := p.1.latitude
      lng := p.1.longitude
      similarity := roundTo 4 (p.2 / 100)
      landmarkType := p.1.type
      city := p.1.city })

/-- `LandmarkMatcher.match_landmark` on the fuzzy path: empty phrase and
empty candidate set return no matches. -/
def match_landmark (sim : String → String → ℚ) (gaz : List Landmark)
    (phrase : String) (city : Option String) (topK : ℕ) (threshold : ℚ) :
    List MatchResult :=
  if phrase = "" then []
  else
    let candidates := matchCandidates gaz city
    if candidates.isEmpty then []
    else _match_with_fuzzy sim phrase candidates topK threshold

/-! ## Location predictor (src/geospatial_nlp/location_predictor.py)

Randomness is modelled by oracles: `randU a b` stands for the draw
`random.uniform(a, b)`, `randB` for the `random_bearing()` draw, and
`randF` for the `random.random()` draw of the perpendicular branch.  The
geodesic step `offset_coordinate` is passed as a function parameter
`offsetFn` here (its trigonometry is embedded over `ℝ` further below). -/

/-- A matched-landmark dictionary as consumed by `LocationPredictor`:
each optional field models the presence of the corresponding key
(a key explicitly set to `None` is modelled as absent; `predict` would
raise on a `None`-valued coordinate key, a path no claim exercises). -/
structure PredLm where
  lat : Option ℚ := none
  lng : Option ℚ := none
  lon : Option ℚ := none
  latitude : Option ℚ := none
  longitude : Option ℚ := none
  similarity : Option ℚ := none
deriving DecidableEq, Repr

/-- An entry of `street_info["street_numbers"]`: `number` is the value
`int(entry.get("number", 0))` would produce, `none` when `int(...)`
raises (the code then keeps a zero lane offset). -/
structure StreetNumEntry where
  number : Option ℤ := some 0
deriving DecidableEq, Repr

/-- An entry of `address_components["landmarks"]`: only its
`get("direction", "")` is consulted. -/
structure LmCompEntry where
  direction : String := ""
deriving DecidableEq, Repr

/-- `address_components` as consumed by `LocationPredictor`:
`directions`, `landmarks` and `street_info` (whose `street_numbers` and
`building_numbers` lists are the only parts read). -/
structure AddressComponents where
  directions : List String := []
  landmarks : List LmCompEntry := []
  streetNumbers : List StreetNumEntry := []
  buildingNumbers : List String := []
deriving DecidableEq, Repr

/-- One entry of `RELATIVE_DIRECTION_CONFIG`. -/
structure DirConfig where
  minOffsetM : ℚ
  maxOffsetM : ℚ
  bearingMode : String
  baseBearing : Option ℚ := none
deriving DecidableEq, Repr

/-- `RELATIVE_DIRECTION_CONFIG` of location_predictor.py. -/
def RELATIVE_DIRECTION_CONFIG : List (String × DirConfig) :=
  [ ("near", ⟨50, 100, "random", none⟩)
  , ("behind", ⟨30, 80, "opposite", some 180⟩)
  , ("opposite", ⟨20, 50, "opposite", some 180⟩)
  , ("beside", ⟨10, 40, "perpendicular", some 90⟩)
  , ("adjacent", ⟨10, 40, "perpendicular", some 90⟩)
  , ("after", ⟨100, 200, "forward", some 0⟩)
  , ("past", ⟨100, 200, "forward", some 0⟩)
  , ("before", ⟨100, 200, "backward", some 180⟩)
  , ("next to", ⟨5, 30, "random", none⟩)
  , ("in front of", ⟨15, 50, "fixed", some 0⟩)
  , ("across from", ⟨30, 80, "opposite", some 180⟩) ]

/-- Lookup in `RELATIVE_DIRECTION_CONFIG`. -/
def lookupDirConfig (k : String) : Option DirConfig :=
  (RELATIVE_DIRECTION_CONFIG.find? (fun e => e.1 = k)).map (·.2)

/-- `LANE_OFFSET_MULTIPLIER` (meters per lane number). -/
def LANE_OFFSET_MULTIPLIER : ℚ := 15

/-- Python float `%` with a positive modulus: `x - m * ⌊x / m⌋`. -/
def pyModQ (x m : ℚ) : ℚ :=
  x - m * (⌊x / m⌋ : ℤ)

/-- `LocationPredictor._get_primary_direction`: the first direction word
(lowered) with a config entry, else the first landmark-embedded direction
with one. -/
def _get_primary_direction (comps : AddressComponents) : Option String :=
  match comps.directions.find? (fun d => (lookupDirConfig (pyLower d)).isSome) with
  | some d => some (pyLower d)
  | none =>
    match comps.landmarks.find?
        (fun lm => (lookupDirConfig (pyLower lm.direction)).isSome) with
    | some lm => some (pyLower lm.direction)
    | none => none

/-- `LocationPredictor._calculate_offset`: lane offset from the first
street number, then the direction-configured distance and bearing (the
bearing reduced mod 360), or a random bearing with the default offset. -/
def _calculate_offset (randU : ℚ → ℚ → ℚ) (randB randF : ℚ)
    (laneMult defaultOffset : ℚ) (direction : Option String)
    (comps : AddressComponents) : ℚ × ℚ :=
  let laneOffset : ℚ :=
    match comps.streetNumbers with
    | [] => 0
    | e :: _ =>
      match e.number with
      | some n => (n : ℚ) * laneMult
      | none => 0
  match (optTruthy direction).bind lookupDirConfig with
  | some cfg =>
    let base := randU cfg.minOffsetM cfg.maxOffsetM
    let total := base + laneOffset
    let bearing :=
      if cfg.bearingMode = "random" then randB
      else if cfg.bearingMode = "opposite" || cfg.bearingMode = "backward" then
        cfg.baseBearing.getD 180 + randU (-30) 30
      else if cfg.bearingMode = "perpendicular" then
        if randF > 1/2 then 360 - cfg.baseBearing.getD 90 else cfg.baseBearing.getD 90
      else if cfg.bearingMode = "forward" then
        cfg.baseBearing.getD 0 + randU (-20) 20
      else cfg.baseBearing.getD 0
    (pyModQ bearing 360, total)
  | none => (randB, defaultOffset + laneOffset)

/-- `LocationPredictor._calculate_confidence`: anchor similarity
(default 0.5) plus 0.10 for a direction word, 0.05 each for street and
building numbers, 0.05 for at least two landmarks, capped at 0.95. -/
def _calculate_confidence (anchor : PredLm) (direction : Option String)
    (comps : AddressComponents) : ℚ :=
  let c0 := anchor.similarity.getD (1/2)
  let c1 := if (optTruthy direction).isSome then c0 + 1/10 else c0
  let c2 := if comps.streetNumbers.isEmpty then c1 else c1 + 1/20
  let c3 := if comps.buildingNumbers.isEmpty then c2 else c2 + 1/20
  let c4 := if 2 ≤ comps.landmarks.length then c3 + 1/20 else c3
  min c4 (19/20)

/-- The `similarity` key with the selection default 0.5. -/
def simD (lm : PredLm) : ℚ :=
  lm.similarity.getD (1/2)

/-- The candidate list of `LocationPredictor._select_anchor`: landmarks
with a `lat` value and positive similarity; if none, the landmarks with a
`latitude` value, with `lat`/`lng` copied from `latitude`/`longitude`. -/
def anchorCandidates (lms : List PredLm) : List PredLm :=
  let valid1 := lms.filter (fun lm => lm.lat.isSome && decide (0 < lm.similarity.getD 0))
  if valid1.isEmpty then
    (lms.filter (fun lm => lm.latitude.isSome)).map (fun lm =>
      { lm with
        lat := if lm.latitude.isSome then lm.latitude else lm.lat
        lng := if lm.longitude.isSome then lm.longitude else lm.lng })
  else valid1

/-- `LocationPredictor._select_anchor`: `max(valid, key=similarity)` with
default 0.5 — the first candidate of maximal similarity. -/
def _select_anchor (lms : List PredLm) : Option PredLm :=
  match anchorCandidates lms with
  | [] => none
  | x :: xs => some (xs.foldl (fun best y => if simD best < simD y then y else best) x)

/-- `PredictionResult` of location_predictor.py.  `to_dict` additionally
rounds `lat`/`lng` to 6 places, `confidence` to 3, and the offset and
bearing to 1; every value the claims mention is a fixed point of that
rounding. -/
structure PredictionResult where
  lat : ℚ
  lng : ℚ
  confidence : ℚ
  anchorLandmark : Option PredLm
  directionUsed : Option String
  offsetAppliedM : ℚ
  bearingAppliedDeg : ℚ
  method : String
deriving DecidableEq, Repr

/-- `LocationPredictor._fallback_prediction`. -/
def _fallback_prediction : PredictionResult :=
  ⟨0, 0, 0, none, none, 0, 0, "fallback"⟩

/-- `LocationPredictor.predict`: fallback on an empty list or failed
anchor selection; otherwise offset the anchor by the computed bearing and
distance (`offsetFn` standing for `offset_coordinate`) and attach the
confidence. -/
def predict (randU : ℚ → ℚ → ℚ) (randB randF : ℚ)
    (offsetFn : ℚ → ℚ → ℚ → ℚ → ℚ × ℚ) (laneMult defaultOffset : ℚ)
    (lms : List PredLm) (comps : AddressComponents) : PredictionResult :=
  if lms.isEmpty then _fallback_prediction
  else
    match _select_anchor lms with
    | none => _fallback_prediction
    | some anchor =>
      match anchor.lat with
      | none => _fallback_prediction
      | some alat =>
        let direction := _get_primary_direction comps
        let bd := _calculate_offset randU randB randF laneMult defaultOffset
          direction comps
        let alng := ((anchor.lng.orElse (fun _ => anchor.lon)).orElse
          (fun _ => anchor.longitude)).getD 0
        let nc := offsetFn alat alng bd.1 bd.2
        ⟨nc.1, nc.2, _calculate_confidence anchor direction comps, some anchor,
         direction, bd.2, bd.1,
         if direction.isSome then "landmark_offset" else "landmark_direct"⟩

/-! ## Component-weighted confidence scorer (src/geospatial_nlp/confidence_scorer.py)

The exponential decay `math.exp(-distance/500)` is abstracted by a
function parameter `expFn` (with `expFn r` standing for `exp (-r)`); the
bound claim holds for every such function. -/

/-- The `geo_features` dictionary consumed by `ConfidenceScorer.score` of
confidence_scorer.py: the four component lists (only lengths and
truthiness are read) and the optional `distance_m`. -/
structure GeoFeaturesCS where
  directions : List String := []
  landmarks : List String := []
  streetNumbers : List String := []
  buildingNumbers : List String := []
  distanceM : Option ℚ := none
deriving DecidableEq, Repr

/-- `distance_to_confidence`: 1 at nonpositive distance, else the
exponential decay `exp (-(d / 500))`, with `expFn r` standing for
`exp (-r)`. -/
def distance_to_confidence (expFn : ℚ → ℚ) (d : ℚ) : ℚ :=
  if d ≤ 0 then 1 else expFn (d / 500)

/-- `aggregate_landmark_scores`: 0 on no scores, the score itself on one,
else 60% of the best plus 40% of the mean of the rest (sorted
descending). -/
def aggregate_landmark_scores (scores : List ℚ) : ℚ :=
  match scores with
  | [] => 0
  | [x] => x
  | _ =>
    match scores.insertionSort (fun a b : ℚ => b ≤ a) with
    | [] => 0
    | best :: rest => 3/5 * best + 2/5 * (rest.sum / (rest.length : ℚ))

/-- `count_components`: total length of the truthy component lists. -/
def count_components (g : GeoFeaturesCS) : ℕ :=
  (if g.directions.isEmpty then 0 else g.directions.length)
  + (if g.landmarks.isEmpty then 0 else g.landmarks.length)
  + (if g.streetNumbers.isEmpty then 0 else g.streetNumbers.length)
  + (if g.buildingNumbers.isEmpty then 0 else g.buildingNumbers.length)

/-- `component_count_to_score`: the saturating step curve. -/
def component_count_to_score (count : ℕ) : ℚ :=
  if count = 0 then 0
  else if count ≤ 2 then 3/10 + (count : ℚ) * (3/20)
  else if count ≤ 4 then 11/20 + ((count : ℚ) - 2) * (3/20)
  else min 1 (17/20 + ((count : ℚ) - 4) * (1/20))

/-- `get_confidence_level` of confidence_scorer.py. -/
def get_confidence_level (s : ℚ) : String :=
  if 4/5 ≤ s then "HIGH"
  else if 3/5 ≤ s then "MEDIUM"
  else if 2/5 ≤ s then "LOW"
  else "VERY_LOW"

/-- The five component scores of `ConfidenceScorer._calculate_components`. -/
structure ComponentScores where
  nlpConfidence : ℚ
  landmarkSimilarity : ℚ
  geoDistance : ℚ
  densityScore : ℚ
  componentCount : ℚ
deriving DecidableEq, Repr

/-- `ConfidenceScorer._calculate_components` of confidence_scorer.py. -/
def _calculate_components (expFn : ℚ → ℚ) (nlpConf : ℚ) (landmarkScores : List ℚ)
    (geo : GeoFeaturesCS) (densityScore : ℚ) : ComponentScores where
  nlpConfidence := max 0 (min 1 nlpConf)
  landmarkSimilarity := aggregate_landmark_scores landmarkScores
  geoDistance := distance_to_confidence expFn (geo.distanceM.getD 100)
  densityScore := max 0 (min 1 densityScore)
  componentCount := component_count_to_score (count_components geo)

/-- `ConfidenceScorer._weighted_sum` with the default `FEATURE_WEIGHTS`
(all five components are always present, so the actual weight sum equals
the total weight sum). -/
def _weighted_sum (c : ComponentScores) : ℚ :=
  let total := c.nlpConfidence * (1/5) + c.landmarkSimilarity * (3/10)
    + c.geoDistance * (1/4) + c.densityScore * (3/20) + c.componentCount * (1/10)
  let wsum : ℚ := 1/5 + 3/10 + 1/4 + 3/20 + 1/10
  if 0 < wsum then total / wsum * wsum else 1/2

/-- `ConfidenceScorer.score` of confidence_scorer.py (default weighted-sum
path): the weighted blend clamped to [0, 1]; the returned dictionary
carries `round(confidence_score, 3)`. -/
def score_component_based (expFn : ℚ → ℚ) (nlpConf : ℚ)
    (landmarkScores : List ℚ) (geo : GeoFeaturesCS) (densityScore : ℚ) : ℚ :=
  roundTo 3 (max 0 (min 1
    (_weighted_sum (_calculate_components expFn nlpConf landmarkScores geo densityScore))))

/-! ## Source-based confidence scorer (src/geospatial_nlp/confidence.py)

The building-number regex check `_has_building_number` is abstracted by a
boolean function parameter `hasBldg`; the bound claim holds for every
such predicate. -/

/-- The normalizer-output dictionary consumed by
`ConfidenceScorer.score` of confidence.py. -/
structure NormalizedIn where
  pincode : Option String := none
  city : Option String := none
  state : Option String := none
  original : String := ""
deriving DecidableEq, Repr

/-- An extracted-landmark dictionary: only `get("confidence", 0.5)` and
the list length are consulted. -/
structure LandmarkIn where
  confidence : Option ℚ := none
deriving DecidableEq, Repr

/-- The geocoder-result dictionary: only the `source` key is consulted. -/
structure GeoResultIn where
  source : Option String := none
deriving DecidableEq, Repr

/-- `SOURCE_BASE_SCORES` of confidence.py. -/
def SOURCE_BASE_SCORES : List (String × ℚ) :=
  [ ("pincode", 17/20)
  , ("pincode_prefix", 13/20)
  , ("city", 11/20)
  , ("state", 3/10)
  , ("nominatim", 7/10)
  , ("country_fallback", 1/10) ]

/-- `ConfidenceScorer._score_pincode` of confidence.py. -/
def _score_pincode (n : NormalizedIn) : ℚ :=
  match optTruthy n.pincode with
  | none => 3/10
  | some p =>
    if p.length = 6 ∧ p.data.all Char.isDigit then
      let c := p.data.headD ' '
      if ("12345678".data.contains c) then 19/20
      else if c = '9' then 4/5
      else 2/5
    else 2/5

/-- `ConfidenceScorer._get_major_cities` of confidence.py. -/
def majorCitiesValidation : List String :=
  [ "mumbai", "delhi", "bengaluru", "chennai", "kolkata"
  , "hyderabad", "pune", "ahmedabad", "surat", "jaipur"
  , "lucknow", "kanpur", "nagpur", "indore", "thane"
  , "bhopal", "visakhapatnam", "patna", "vadodara", "ghaziabad"
  , "noida", "gurugram", "chandigarh", "coimbatore", "kochi" ]

/-- `ConfidenceScorer._score_city` of confidence.py. -/
def _score_city (n : NormalizedIn) : ℚ :=
  match optTruthy n.city with
  | none => 2/5
  | some c =>
    if majorCitiesValidation.contains (pyLower c) then 9/10 else 7/10

/-- `ConfidenceScorer._score_state` of confidence.py. -/
def _score_state (n : NormalizedIn) : ℚ :=
  match optTruthy n.state with
  | none => 2/5
  | some st =>
    if st.length = 2 ∧ st.data.all Char.isAlpha then 17/20 else 3/5

/-- `ConfidenceScorer._score_landmarks` of confidence.py. -/
def _score_landmarks (lms : List LandmarkIn) : ℚ :=
  if lms.isEmpty then 2/5
  else
    let n := lms.length
    let base : ℚ := if 3 ≤ n then 9/10 else if n = 2 then 4/5 else 7/10
    let avg := (lms.map (fun lm => lm.confidence.getD (1/2))).sum / (n : ℚ)
    base * (7/10 + 3/10 * avg)

/-- The `region_city_map` of `_score_consistency`. -/
def regionCityMap : List (String × List String) :=
  [ ("1", ["delhi", "chandigarh", "shimla", "srinagar"])
  , ("2", ["lucknow", "kanpur", "agra", "noida", "ghaziabad"])
  , ("3", ["jaipur", "ahmedabad", "surat", "vadodara"])
  , ("4", ["mumbai", "pune", "nagpur", "thane", "nashik", "bhopal"])
  , ("5", ["hyderabad", "bengaluru", "visakhapatnam"])
  , ("6", ["chennai", "thiruvananthapuram", "kochi", "coimbatore"])
  , ("7", ["kolkata", "bhubaneswar", "guwahati"])
  , ("8", ["patna", "ranchi"]) ]

/-- `ConfidenceScorer._score_consistency` of confidence.py (the
`geo_result` argument is unused by the source). -/
def _score_consistency (n : NormalizedIn) : ℚ :=
  let pincode := n.pincode.getD ""
  let city := n.city.getD ""
  if pincode = "" then 1/2
  else
    let expected := ((regionCityMap.find? (fun e => e.1 = pincode.take 1)).map
      (·.2)).getD []
    if expected.contains (pyLower city) then 19/20
    else if city ≠ "" ∧ !((regionCityMap.flatMap (·.2)).contains (pyLower city)) then 1/2
    else if city ≠ "" then 3/10
    else 1/2

/-- `ConfidenceScorer._calculate_adjustments` of confidence.py, summed as
`score` does (`hasBldg` stands for the `_has_building_number` regex
check on the original text). -/
def _calculate_adjustments (hasBldg : String → Bool) (n : NormalizedIn)
    (lms : List LandmarkIn) (geo : GeoResultIn) : ℚ :=
  (if 2 ≤ lms.length then (1/20 : ℚ) else 0)
  + (if hasBldg n.original then 1/20 else 0)
  + (if geo.source = some "country_fallback" then -(1/5) else 0)

/-- `ConfidenceScorer.score` of confidence.py: the per-source base score
plus weighted component deltas (`weight * (component - 0.5) * 2` with the
default `COMPONENT_WEIGHTS`) plus adjustments, clamped to [0.05, 0.99];
the returned dictionary carries `round(final_score, 3)`. -/
def score_source_based (hasBldg : String → Bool) (n : NormalizedIn)
    (lms : List LandmarkIn) (geo : GeoResultIn) : ℚ :=
  let base := ((SOURCE_BASE_SCORES.find?
    (fun e => e.1 = geo.source.getD "country_fallback")).map (·.2)).getD (1/10)
  let final := base
    + (7/20) * (_score_pincode n - 1/2) * 2
    + (1/5) * (_score_city n - 1/2) * 2
    + (3/20) * (_score_state n - 1/2) * 2
    + (3/20) * (_score_landmarks lms - 1/2) * 2
    + (3/20) * (_score_consistency n - 1/2) * 2
    + _calculate_adjustments hasBldg n lms geo
  roundTo 3 (max (1/20) (min (99/100) final))

/-! ## Address normalizer (src/geospatial_nlp/normalizer.py)

The text pipeline of `AddressNormalizer.normalize` (the returned `text`
field): `clean_text`, directional-suffix expansion, the three
word-boundary substitution passes, `_clean_noise`, and
`normalize_whitespace`.  Component extraction (pincode/state/city) reads
the text but never modifies it, so the claim's equation on the normalized
text depends only on this pipeline.  `unicodedata.normalize("NFKC", ·)`
is the identity on the ASCII inputs considered. -/

/-- Whitespace-run collapse of `re.sub(r'\s+', ' ', text)`; `prevSpace`
records whether the previous character belonged to a whitespace run. -/
def collapseWsAux (prevSpace : Bool) : List Char → List Char
  | [] => []
  | c :: rest =>
    if pyIsSpace c then
      if prevSpace then collapseWsAux true rest
      else ' ' :: collapseWsAux true rest
    else c :: collapseWsAux false rest

/-- `utils.clean_text`: NFKC (identity on ASCII), lowercase, collapse
whitespace, strip. -/
def clean_text (s : String) : String :=
  pyStripWs ⟨collapseWsAux false (pyLower s).data⟩

/-- `utils.normalize_whitespace`. -/
def normalize_whitespace (s : String) : String :=
  pyStripWs ⟨collapseWsAux false s.data⟩

/-- `ENGLISH_ABBREVIATIONS` of normalizer.py, in source order. -/
def ENGLISH_ABBREVIATIONS : List (String × String) :=
  [ ("n", "north"), ("s", "south"), ("e", "east"), ("w", "west")
  , ("ne", "northeast"), ("nw", "northwest"), ("se", "southeast"), ("sw", "southwest")
  , ("rd", "road"), ("st", "street"), ("ln", "lane"), ("ave", "avenue")
  , ("blvd", "boulevard"), ("hwy", "highway"), ("nh", "national highway")
  , ("sh", "state highway")
  , ("bldg", "building"), ("blk", "block"), ("flr", "floor"), ("fl", "floor")
  , ("apt", "apartment"), ("appt", "apartment"), ("flat", "flat"), ("flt", "flat")
  , ("hse", "house"), ("hno", "house number"), ("h.no", "house number")
  , ("nr", "near"), ("opp", "opposite"), ("adj", "adjacent"), ("bhnd", "behind")
  , ("b/h", "behind"), ("bh", "behind"), ("nxt", "next to"), ("beside", "beside")
  , ("sec", "sector"), ("ph", "phase"), ("extn", "extension"), ("ext", "extension")
  , ("plt", "plot"), ("dist", "district"), ("div", "division"), ("taluk", "taluk")
  , ("tq", "taluk"), ("mandal", "mandal")
  , ("po", "post office"), ("p.o", "post office"), ("ps", "police station")
  , ("p.s", "police station"), ("pin", "pincode")
  , ("mkt", "market"), ("stn", "station"), ("rly", "railway"), ("hosp", "hospital")
  , ("govt", "government"), ("pvt", "private"), ("ltd", "limited"), ("co", "company")
  , ("ind", "industrial"), ("indl", "industrial"), ("comm", "commercial")
  , ("res", "residential"), ("soc", "society"), ("chs", "cooperative housing society")
  , ("chsl", "cooperative housing society limited") ]

/-- `TRANSLITERATIONS` of normalizer.py, in source order. -/
def TRANSLITERATIONS : List (String × String) :=
  [ ("gali", "lane"), ("gully", "lane"), ("marg", "road"), ("path", "road")
  , ("sadak", "road"), ("rasta", "road")
  , ("mohalla", "locality"), ("mohala", "locality"), ("para", "locality")
  , ("nagar", "colony"), ("puram", "colony"), ("puri", "colony")
  , ("wadi", "colony"), ("wada", "colony"), ("peth", "area"), ("pet", "area")
  , ("bagh", "garden area"), ("vihar", "residential area")
  , ("kunj", "residential area"), ("enclave", "enclave")
  , ("chowk", "square"), ("chawk", "square"), ("chauk", "square")
  , ("tiraha", "three-way junction"), ("morh", "turn"), ("mod", "turn")
  , ("pul", "bridge"), ("pull", "bridge"), ("maidan", "ground")
  , ("kund", "pond area"), ("talaab", "lake area"), ("talab", "lake area")
  , ("bhavan", "building"), ("bhawan", "building"), ("sadan", "building")
  , ("ghar", "house"), ("kothi", "bungalow"), ("haveli", "mansion")
  , ("dukan", "shop")
  , ("mandir", "temple"), ("masjid", "mosque"), ("gurudwara", "gurudwara")
  , ("dargah", "dargah")
  , ("bazaar", "market"), ("bazar", "market"), ("mandi", "market")
  , ("haat", "market")
  , ("uttar", "north"), ("dakshin", "south"), ("purv", "east")
  , ("paschim", "west") ]

/-- `CITY_ALIASES` of normalizer.py, in source order. -/
def CITY_ALIASES : List (String × String) :=
  [ ("bombay", "mumbai"), ("madras", "chennai"), ("calcutta", "kolkata")
  , ("bangalore", "bengaluru"), ("trivandrum", "thiruvananthapuram")
  , ("baroda", "vadodara"), ("cochin", "kochi"), ("poona", "pune")
  , ("shimoga", "shivamogga"), ("belgaum", "belagavi"), ("mysore", "mysuru")
  , ("mangalore", "mangaluru"), ("vizag", "visakhapatnam")
  , ("pondicherry", "puducherry"), ("banaras", "varanasi")
  , ("benares", "varanasi"), ("allahabad", "prayagraj")
  , ("gurgaon", "gurugram") ]

/-- Word-character test on an optional character (string edges count as
non-word positions for `\b`). -/
def wordCharOpt (c : Option Char) : Bool :=
  match c with
  | some c => pyWordChar c
  | none => false

/-- Replacement lookup: the substitution callbacks look the matched group
up in their table (the matched keys are always present). -/
def keyLookup (tbl : List (String × String)) (k : String) : String :=
  ((tbl.find? (fun e => e.1 = k)).map (·.2)).getD k

/-- One match attempt of the compiled alternation `\b(k1|k2|…)\.?\b` at
the current position (the `\b` before the keys has already been checked;
every key starts and ends with a word character).  Keys are tried in
alternation order; for each, the greedy `\.?` first tries to consume a
dot — which leaves a valid `\b` only when a word character follows the
dot — and otherwise backtracks to a plain `\b` after the key.  Returns
the matched key and the number of characters consumed. -/
def tryKeys (allowDot : Bool) (rest : List Char) :
    List String → Option (String × ℕ)
  | [] => none
  | k :: ks =>
    if k.data.isPrefixOf rest then
      let n := k.data.length
      let after := rest.drop n
      if allowDot && after.head? = some '.' && wordCharOpt (after.drop 1).head? then
        some (k, n + 1)
      else if !wordCharOpt after.head? then
        some (k, n)
      else tryKeys allowDot rest ks
    else tryKeys allowDot rest ks

/-- The scanning loop of `re.sub` for a word-boundary alternation:
at each position whose left side is a word boundary, try the keys; on a
match, emit the replacement and continue after the consumed characters
(boundaries keep referring to the original text, so `prev` tracks the
last original character); otherwise advance one character.  `fuel` bounds
the recursion; every step consumes at least one character, so any fuel at
least the text length is exact. -/
def pySubAux (tbl : List (String × String)) (keys : List String)
    (allowDot : Bool) : ℕ → Option Char → List Char → List Char
  | 0, _, rest => rest
  | _ + 1, _, [] => []
  | fuel + 1, prev, c :: rest =>
    if !wordCharOpt prev then
      match tryKeys allowDot (c :: rest) keys with
      | some (k, n) =>
        (keyLookup tbl k).data ++
          pySubAux tbl keys allowDot fuel (((c :: rest).take n).getLast? )
            ((c :: rest).drop n)
      | none => c :: pySubAux tbl keys allowDot fuel (some c) rest
    else c :: pySubAux tbl keys allowDot fuel (some c) rest

/-- A whole-word substitution pass: the pattern is built from the table's
keys sorted longest first (Python's stable `sorted(…, key=len,
reverse=True)`), as in `AddressNormalizer._compile_patterns`. -/
def pyWordSub (tbl : List (String × String)) (allowDot : Bool) (s : String) : String :=
  let keys := (tbl.map (·.1)).insertionSort (fun a b => b.length ≤ a.length)
  ⟨pySubAux tbl keys allowDot (s.data.length + 1) none s.data⟩

/-- `AddressNormalizer._expand_direction_suffixes`: `(e)`, `(w)`, `(n)`,
`(s)` (case-insensitive) become the spelled-out direction. -/
def dirSuffixAux : List Char → List Char
  | '(' :: c :: ')' :: rest2 =>
    if Char.toLower c = 'e' then "east".data ++ dirSuffixAux rest2
    else if Char.toLower c = 'w' then "west".data ++ dirSuffixAux rest2
    else if Char.toLower c = 'n' then "north".data ++ dirSuffixAux rest2
    else if Char.toLower c = 's' then "south".data ++ dirSuffixAux rest2
    else '(' :: dirSuffixAux (c :: ')' :: rest2)
  | c :: rest => c :: dirSuffixAux rest
  | [] => []

/-- `AddressNormalizer._expand_direction_suffixes` on strings. -/
def _expand_direction_suffixes (s : String) : String :=
  ⟨dirSuffixAux s.data⟩

/-- `AddressNormalizer._expand_abbreviations`. -/
def _expand_abbreviations (s : String) : String :=
  pyWordSub ENGLISH_ABBREVIATIONS true s

/-- `AddressNormalizer._handle_transliterations`. -/
def _handle_transliterations (s : String) : String :=
  pyWordSub TRANSLITERATIONS false s

/-- `AddressNormalizer._normalize_city_names`. -/
def _normalize_city_names (s : String) : String :=
  pyWordSub CITY_ALIASES false s

/-- A character of the noise class `[,\.\-]`. -/
def isNoiseChar (c : Char) : Bool :=
  c = ',' || c = '.' || c = '-'

/-- `re.sub(r'[,\.\-]{2,}', first-char, ·)`: within each maximal noise
run the first character is kept and the rest dropped (a single noise
character is left untouched, which the same rule produces). -/
def noiseAux (prevNoise : Bool) : List Char → List Char
  | [] => []
  | c :: rest =>
    if isNoiseChar c then
      if prevNoise then noiseAux true rest
      else c :: noiseAux true rest
    else c :: noiseAux false rest

/-- The characters stripped from segment edges in `_clean_noise`. -/
def stripSegChars : List Char :=
  [' ', '.', ',', ';', ':', '-']

/-- `s.strip(' .,;:-')`. -/
def stripSeg (s : String) : String :=
  ⟨((s.data.dropWhile (fun c => stripSegChars.contains c)).reverse.dropWhile
      (fun c => stripSegChars.contains c)).reverse⟩

/-- Python `str.split(sep)` for a single-character separator (keeps empty
pieces, unlike the whitespace split). -/
def splitCharAux (sep : Char) (cur : List Char) : List Char → List String
  | [] => [⟨cur.reverse⟩]
  | c :: rest =>
    if c = sep then ⟨cur.reverse⟩ :: splitCharAux sep [] rest
    else splitCharAux sep (c :: cur) rest

/-- Python `str.split(sep)` for a single-character separator. -/
def splitChar (sep : Char) (s : String) : List String :=
  splitCharAux sep [] s.data

/-- `AddressNormalizer._clean_noise`: collapse noise runs, split on
commas, keep segments with non-whitespace content, strip segment edges,
re-join with ", ". -/
def _clean_noise (s : String) : String :=
  let t : String := ⟨noiseAux false s.data⟩
  let segs := (splitChar ',' t).filter (fun seg => pyStripWs seg ≠ "")
  joinWith ", " (segs.map stripSeg)

/-- The `text` field computed by `AddressNormalizer.normalize` (default
options): cleaning, directional suffixes, abbreviations,
transliterations, city aliases, noise cleanup, final whitespace pass;
empty input short-circuits to the all-empty result. -/
def normalizeText (address : String) : String :=
  if address = "" then ""
  else
    normalize_whitespace (_clean_noise (_normalize_city_names
      (_handle_transliterations (_expand_abbreviations
        (_expand_direction_suffixes (clean_text address))))))

/-! ## Geodesic offset and haversine over ℝ
(src/geospatial_nlp/location_predictor.py lines 31-191)

Floating-point trigonometry is modelled by exact real arithmetic. -/

/-- `EARTH_RADIUS_M` of location_predictor.py. -/
noncomputable def EARTH_RADIUS_M : ℝ := 6371000

/-- `math.radians`. -/
noncomputable def radiansR (x : ℝ) : ℝ := x * Real.pi / 180

/-- `math.degrees`. -/
noncomputable def degreesR (x : ℝ) : ℝ := x * 180 / Real.pi

/-- `math.atan2` on reals (the two-argument arctangent; the C/Python
sign-of-zero distinctions collapse on ℝ). -/
noncomputable def pyAtan2 (y x : ℝ) : ℝ :=
  if 0 < x then Real.arctan (y / x)
  else if x < 0 then
    if 0 ≤ y then Real.arctan (y / x) + Real.pi
    else Real.arctan (y / x) - Real.pi
  else
    if 0 < y then Real.pi / 2
    else if y < 0 then -(Real.pi / 2)
    else 0

/-- `offset_coordinate` of location_predictor.py: the geodesic direct
step from `(lat, lon)` (degrees) along `bearing` (degrees) for
`d` meters on the sphere of radius `EARTH_RADIUS_M`. -/
noncomputable def offset_coordinate (lat lon bearing d : ℝ) : ℝ × ℝ :=
  let latR := radiansR lat
  let lonR := radiansR lon
  let bR := radiansR bearing
  let angDist := d / EARTH_RADIUS_M
  let sinLat2 := Real.sin latR * Real.cos angDist
    + Real.cos latR * Real.sin angDist * Real.cos bR
  let lat2 := Real.arcsin sinLat2
  let lon2 := lonR + pyAtan2 (Real.sin bR * Real.sin angDist * Real.cos latR)
    (Real.cos angDist - Real.sin latR * Real.sin lat2)
  (degreesR lat2, degreesR lon2)

/-- `haversine_distance` of location_predictor.py (meters). -/
noncomputable def haversine_distance_m (lat1 lon1 lat2 lon2 : ℝ) : ℝ :=
  let p1 := radiansR lat1
  let p2 := radiansR lat2
  let dp := radiansR (lat2 - lat1)
  let dl := radiansR (lon2 - lon1)
  let a := Real.sin (dp / 2) ^ 2
    + Real.cos p1 * Real.cos p2 * Real.sin (dl / 2) ^ 2
  let c := 2 * pyAtan2 (Real.sqrt a) (Real.sqrt (1 - a))
  EARTH_RADIUS_M * c

/-! ## Helper lemmas -/

theorem roundTo_mono {k : ℕ} {x y : ℚ} (h : x ≤ y) : roundTo k x ≤ roundTo k y := by
  have hp : (0 : ℚ) < 10 ^ k := by positivity
  unfold roundTo
  rw [div_le_div_iff_of_pos_right hp]
  have hm : x * 10 ^ k ≤ y * 10 ^ k := mul_le_mul_of_nonneg_right h hp.le
  have hr : round (x * 10 ^ k) ≤ round (y * 10 ^ k) := by
    rw [round_eq, round_eq]
    exact Int.floor_mono (by linarith)
  exact_mod_cast hr

theorem validate_pincode_length {p : String} (h : validate_pincode p = true) :
    3 ≤ p.length := by
  unfold validate_pincode at h
  split at h
  · exact absurd h (by simp)
  · unfold pincodeRegexFull at h
    have hle : (stripSpaceHyphen p).data.length ≤ p.data.length :=
      List.length_filter_le _ _
    cases hd : (stripSpaceHyphen p).data with
    | nil => rw [hd] at h; exact absurd h (by simp)
    | cons c rest =>
      rw [hd] at h
      simp only [Bool.and_eq_true, decide_eq_true_eq] at h
      have h5 : rest.length = 5 := h.1.2
      rw [hd] at hle
      simp only [List.length_cons, h5] at hle
      change 3 ≤ p.data.length
      omega

/-! ## C1: uncertainty across the fallback tiers -/

/-- C1, counterexample: the claim's chain asserts the pincode-prefix
tier's uncertainty is at most the city tier's, but the prefix tier
produces 20 km (here for the valid, unmapped pincode "400999", matched by
prefix against the stored "400001") while the city tier produces 15 km
(here for "mumbai"), and 20 ≤ 15 fails. -/
theorem uncertainty_chain_counterexample :
    (_geocode_by_pincode fallbackPincodes "400999").map GeoResult.uncertaintyKm =
      some 20 ∧
    (_geocode_by_city "mumbai").map GeoResult.uncertaintyKm = some 15 ∧
    ¬ ((20 : ℚ) ≤ 15) := by
  refine ⟨rfl, rfl, by norm_num⟩

/-- C1, amended: every tier result carries the tier's fixed uncertainty
(pincode 5 km, pincode-prefix 20 km, city 15 km, state 150 km, country
fallback 1500 km), and these are non-decreasing in the order pincode ≤
city ≤ pincode_prefix ≤ state ≤ country_fallback — the spec's order fails
only at pincode_prefix ≤ city. -/
theorem uncertainty_chain_amended :
    (∀ tbl p r, _geocode_by_pincode tbl p = some r →
      (r.source = "pincode" ∧ r.uncertaintyKm = 5) ∨
      (r.source = "pincode_prefix" ∧ r.uncertaintyKm = 20)) ∧
    (∀ c r, _geocode_by_city c = some r →
      r.source = "city" ∧ r.uncertaintyKm = 15) ∧
    (∀ st r, _geocode_by_state st = some r →
      r.source = "state" ∧ r.uncertaintyKm = 150) ∧
    (_get_india_fallback.source = "country_fallback" ∧
      _get_india_fallback.uncertaintyKm = 1500) ∧
    ((5 : ℚ) ≤ 15 ∧ (15 : ℚ) ≤ 20 ∧ (20 : ℚ) ≤ 150 ∧ (150 : ℚ) ≤ 1500) := by
  refine ⟨?_, ?_, ?_, ⟨rfl, rfl⟩, by norm_num⟩
  · intro tbl p r h
    unfold _geocode_by_pincode at h
    split at h
    · injection h with h
      subst h
      exact Or.inl ⟨rfl, rfl⟩
    · split at h
      · split at h
        · injection h with h
          subst h
          exact Or.inr ⟨rfl, rfl⟩
        · exact absurd h (by simp)
      · exact absurd h (by simp)
  · intro c r h
    unfold _geocode_by_city at h
    split at h
    · injection h with h
      subst h
      exact ⟨rfl, rfl⟩
    · exact absurd h (by simp)
  · intro st r h
    unfold _geocode_by_state at h
    split at h
    · injection h with h
      subst h
      exact ⟨rfl, rfl⟩
    · exact absurd h (by simp)

/-- C1, witness: the amended theorem applied to the concrete city lookup
for "mumbai". -/
theorem uncertainty_chain_amended_witness :
    ({ latitude := 19.0760, longitude := 72.8777, source := "city",
       precision := "city", uncertaintyKm := 15 } : GeoResult).source = "city" ∧
    ({ latitude := 19.0760, longitude := 72.8777, source := "city",
       precision := "city", uncertaintyKm := 15 } : GeoResult).uncertaintyKm = 15 :=
  uncertainty_chain_amended.2.1 "mumbai" _ rfl

/-! ## C2: pincode validation versus the bare regex -/

/-- C2, counterexample: `validate_pincode` accepts "400-001", which does
not match `[1-9]\d{5}` (it is seven characters), because the code strips
whitespace and hyphens before matching. -/
theorem validate_pincode_counterexample :
    validate_pincode "400-001" = true ∧ pincodeRegexFull "400-001" = false := by
  exact ⟨by decide, by decide⟩

/-- C2, amended: `validate_pincode s` returns true exactly when `s` with
all whitespace and hyphens removed matches `[1-9]\d{5}` in full; in
particular every string already matching the regex is accepted, but so
are decorated forms such as "400-001". -/
theorem validate_pincode_amended (s : String) :
    validate_pincode s = pincodeRegexFull (stripSpaceHyphen s) := by
  unfold validate_pincode
  split
  · rename_i h
    subst h
    rfl
  · rfl

/-! ## C5: geocoding empty input -/

/-- C5: with the repository's built-in tables (no data directory ships
with the source, so the loaders return the fallback tables), empty text
and no pincode/state/city hints always reach the country fallback:
source "country_fallback", coordinates (20.5937, 78.9629), precision
"country", uncertainty 1500 km.  The embedding is total, mirroring that
the code raises no exception on this path. -/
theorem geocode_empty_input (apiFn : String → Option GeoResult) :
    geocode fallbackPincodes fallbackStates false apiFn "" none none none =
      { latitude := 20.5937, longitude := 78.9629, source := "country_fallback",
        precision := "country", uncertaintyKm := 1500 } := by
  rfl

/-! ## C3: landmark matcher result shape -/

theorem fuzzy_match_props (sim : String → String → ℚ) (phrase : String)
    (cs : List Landmark) (topK : ℕ) :
    List.Pairwise (fun a b : MatchResult => b.similarity ≤ a.similarity)
      (_match_with_fuzzy sim phrase cs topK (1/2)) ∧
    (∀ r ∈ _match_with_fuzzy sim phrase cs topK (1/2), (1/2 : ℚ) ≤ r.similarity) ∧
    (_match_with_fuzzy sim phrase cs topK (1/2)).length ≤ topK ∧
    (∀ r ∈ _match_with_fuzzy sim phrase cs topK (1/2), ∃ lm ∈ cs,
      r.matchedName = lm.name ∧ r.lat = lm.latitude ∧ r.lng = lm.longitude ∧
      r.city = lm.city) := by
  have hround : roundTo 4 (1/2 : ℚ) = 1/2 := by
    norm_num [roundTo, round_eq]
  unfold _match_with_fuzzy
  set scored := cs.map (fun c => (c, sim phrase c.name)) with hscored
  have hsorted : List.Pairwise (fun a b : Landmark × ℚ => b.2 ≤ a.2)
      (scored.insertionSort (fun a b => b.2 ≤ a.2)) :=
    @List.sorted_insertionSort (Landmark × ℚ) (fun a b => b.2 ≤ a.2) _
      ⟨fun a b => le_total b.2 a.2⟩ ⟨fun _ _ _ h1 h2 => le_trans h2 h1⟩ scored
  have hsub : (((scored.insertionSort (fun a b => b.2 ≤ a.2)).take topK).filter
      (fun p => decide ((1/2 : ℚ) ≤ p.2 / 100))).Sublist
      (scored.insertionSort (fun a b => b.2 ≤ a.2)) :=
    (List.filter_sublist _).trans (List.take_sublist _ _)
  refine ⟨?_, ?_, ?_, ?_⟩
  · rw [List.pairwise_map]
    refine List.Pairwise.imp ?_ (List.Pairwise.sublist hsub hsorted)
    intro p q h
    exact roundTo_mono (by linarith)
  · intro r hr
    obtain ⟨p, hp, hpr⟩ := List.mem_map.1 hr
    have hth : (1/2 : ℚ) ≤ p.2 / 100 := by
      have := (List.mem_filter.1 hp).2
      simpa using this
    subst hpr
    show (1/2 : ℚ) ≤ roundTo 4 (p.2 / 100)
    calc (1/2 : ℚ) = roundTo 4 (1/2) := hround.symm
      _ ≤ roundTo 4 (p.2 / 100) := roundTo_mono hth
  · refine le_trans (le_of_eq (List.length_map _ _)) ?_
    refine le_trans (List.length_filter_le _ _) ?_
    exact List.length_take_le _ _
  · intro r hr
    obtain ⟨p, hp, hpr⟩ := List.mem_map.1 hr
    have hp2 : p ∈ scored := by
      have h2 : p ∈ scored.insertionSort (fun a b => b.2 ≤ a.2) :=
        List.take_subset _ _ (List.mem_of_mem_filter hp)
      exact (List.perm_insertionSort _ _).mem_iff.1 h2
    obtain ⟨lm, hlm, hlmp⟩ := List.mem_map.1 hp2
    refine ⟨lm, hlm, ?_⟩
    subst hpr
    rw [← hlmp]
    exact ⟨rfl, rfl, rfl, rfl⟩

/-- C3, counterexample: with a gazetteer whose only landmark lies in
"mumbai", a match scoped to the city "delhi" still returns that mumbai
landmark — the code falls back to the whole gazetteer when the scope has
no landmarks — so the returned landmarks are not all drawn from the
cityScope restriction as the claim states. -/
theorem match_cityscope_counterexample :
    (match_landmark tokenSortScore
      [⟨"Taj", "monument", 18.9220, 72.8347, "mumbai"⟩]
      "Taj" (some "delhi") 1 (1/2)).map MatchResult.city = ["mumbai"] ∧
    ("mumbai" : String) ≠ "delhi" := by
  constructor
  · have h1 : match_landmark tokenSortScore
        [⟨"Taj", "monument", 18.9220, 72.8347, "mumbai"⟩] "Taj" (some "delhi") 1 (1/2)
        = _match_with_fuzzy tokenSortScore "Taj"
            [⟨"Taj", "monument", 18.9220, 72.8347, "mumbai"⟩] 1 (1/2) := rfl
    have hsc : tokenSortScore "Taj" "Taj"
        = 100 * (2 * ((3 : ℕ) : ℚ)) / (((3 : ℕ) : ℚ) + ((3 : ℕ) : ℚ)) := rfl
    rw [h1]
    simp only [_match_with_fuzzy, List.map_cons, List.map_nil, hsc,
      List.insertionSort, List.orderedInsert, List.take, List.filter]
    norm_num
  · decide

/-- C3, amended: for every scorer, gazetteer, phrase, city scope and
topK, the fuzzy matcher's result (at the default 0.5 threshold) is sorted
by similarity descending, contains only similarities ≥ 0.5, has length
≤ topK, and draws every returned landmark from `matchCandidates` — the
gazetteer restricted to the (lowered) cityScope when that restriction is
non-empty, and the full gazetteer when the scope is absent or has no
landmarks.  With no cityScope the candidate set is the full gazetteer. -/
theorem match_landmark_amended (sim : String → String → ℚ) (gaz : List Landmark)
    (phrase : String) (city : Option String) (topK : ℕ) :
    List.Pairwise (fun a b : MatchResult => b.similarity ≤ a.similarity)
      (match_landmark sim gaz phrase city topK (1/2)) ∧
    (∀ r ∈ match_landmark sim gaz phrase city topK (1/2), (1/2 : ℚ) ≤ r.similarity) ∧
    (match_landmark sim gaz phrase city topK (1/2)).length ≤ topK ∧
    (∀ r ∈ match_landmark sim gaz phrase city topK (1/2),
      ∃ lm ∈ matchCandidates gaz city,
        r.matchedName = lm.name ∧ r.lat = lm.latitude ∧ r.lng = lm.longitude ∧
        r.city = lm.city) ∧
    matchCandidates gaz none = gaz := by
  by_cases h0 : phrase = ""
  · have heq2 : match_landmark sim gaz phrase city topK (1/2) = [] := by
      simp [match_landmark, h0]
    rw [heq2]
    exact ⟨List.Pairwise.nil, by simp, by simp, by simp, rfl⟩
  · by_cases h1 : (matchCandidates gaz city).isEmpty
    · have heq2 : match_landmark sim gaz phrase city topK (1/2) = [] := by
        simp [match_landmark, h0, h1]
      rw [heq2]
      exact ⟨List.Pairwise.nil, by simp, by simp, by simp, rfl⟩
    · have heq : match_landmark sim gaz phrase city topK (1/2)
          = _match_with_fuzzy sim phrase (matchCandidates gaz city) topK (1/2) := by
        simp [match_landmark, h0, h1]
      have base := fuzzy_match_props sim phrase (matchCandidates gaz city) topK
      rw [heq]
      exact ⟨base.1, base.2.1, base.2.2.1, base.2.2.2, rfl⟩

/-! ## C4: strict precedence of the geocoder -/

/-- C4: `geocode` coincides with the claim's strict-precedence cascade
`geocodeSpec` on every input — exact pincode (valid and stored), then
3-digit prefix (uncertainty 20 km, precision "city"), then city from
hint or text, then state from hint or text, then the external API when
enabled, then the country fallback; by the shape of the cascade no
lower-precedence tier is consulted once an earlier one succeeds. -/
theorem geocode_matches_precedence_spec (tbl : List (String × ℚ × ℚ))
    (states : List (String × StateInfo)) (useApi : Bool)
    (apiFn : String → Option GeoResult) (text : String)
    (pincode stateHint cityHint : Option String) :
    geocode tbl states useApi apiFn text pincode stateHint cityHint =
      geocodeSpec tbl states useApi apiFn text pincode stateHint cityHint := by
  unfold geocode geocodeSpec _geocode_by_pincode
  cases hp : optTruthy pincode with
  | none => rfl
  | some p =>
    by_cases hv : validate_pincode p = true
    · simp only [hv, if_true]
      cases hl : lookupTbl tbl p with
      | some pr =>
        obtain ⟨la, lo⟩ := pr
        rfl
      | none =>
        have h3 : 3 ≤ p.length := validate_pincode_length hv
        rw [if_pos h3]
        cases hf : tbl.find? (fun e => (p.data.take 3).isPrefixOf e.1.data) with
        | some e => rfl
        | none => rfl
    · simp only [Bool.not_eq_true] at hv
      simp only [hv, Bool.false_eq_true, if_false]

/-! ## C6 and C10: anchor selection and the fallback prediction -/

theorem foldl_maxBy_mem (x : PredLm) (xs : List PredLm) :
    xs.foldl (fun best y => if simD best < simD y then y else best) x ∈ x :: xs := by
  induction xs generalizing x with
  | nil => simp
  | cons y ys ih =>
    simp only [List.foldl_cons]
    by_cases h : simD x < simD y
    · rw [if_pos h]
      have h2 := ih y
      simp only [List.mem_cons] at h2 ⊢
      tauto
    · rw [if_neg h]
      have h2 := ih x
      simp only [List.mem_cons] at h2 ⊢
      tauto

theorem foldl_maxBy_ge (x : PredLm) (xs : List PredLm) :
    ∀ b ∈ x :: xs,
      simD b ≤ simD (xs.foldl (fun best y => if simD best < simD y then y else best) x) := by
  induction xs generalizing x with
  | nil =>
    intro b hb
    simp only [List.mem_cons, List.not_mem_nil, or_false] at hb
    subst hb
    simp
  | cons y ys ih =>
    intro b hb
    simp only [List.foldl_cons]
    by_cases h : simD x < simD y
    · rw [if_pos h]
      rcases List.mem_cons.1 hb with hbx | hb'
      · subst hbx
        exact le_trans h.le (ih y y (by simp))
      · exact ih y b hb'
    · rw [if_neg h]
      rcases List.mem_cons.1 hb with hbx | hb'
      · subst hbx
        exact ih b b (by simp)
      · rcases List.mem_cons.1 hb' with hby | hb''
        · subst hby
          exact le_trans (not_lt.1 h) (ih x x (by simp))
        · exact ih x b (by simp [hb''])

theorem anchorCandidates_lat_isSome {lms : List PredLm} :
    ∀ a ∈ anchorCandidates lms, a.lat.isSome := by
  intro a ha
  simp only [anchorCandidates] at ha
  split at ha
  · obtain ⟨b, hb, rfl⟩ := List.mem_map.1 ha
    have hb2 := (List.mem_filter.1 hb).2
    simp only [hb2, if_true]
  · have := (List.mem_filter.1 ha).2
    simp only [Bool.and_eq_true] at this
    exact this.1

theorem select_anchor_spec {lms : List PredLm} {a : PredLm}
    (h : _select_anchor lms = some a) :
    a ∈ anchorCandidates lms ∧ ∀ b ∈ anchorCandidates lms, simD b ≤ simD a := by
  unfold _select_anchor at h
  cases hc : anchorCandidates lms with
  | nil => rw [hc] at h; exact absurd h (by simp)
  | cons x xs =>
    rw [hc] at h
    injection h with h
    subst h
    exact ⟨hc ▸ foldl_maxBy_mem x xs, hc ▸ foldl_maxBy_ge x xs⟩

/-- When `predict` returns `method = "fallback"`, the whole result is the
fallback record. -/
theorem predict_method_fallback_eq (randU : ℚ → ℚ → ℚ) (randB randF : ℚ)
    (offsetFn : ℚ → ℚ → ℚ → ℚ → ℚ × ℚ) (laneMult defaultOffset : ℚ)
    (lms : List PredLm) (comps : AddressComponents)
    (hm : (predict randU randB randF offsetFn laneMult defaultOffset lms
      comps).method = "fallback") :
    predict randU randB randF offsetFn laneMult defaultOffset lms comps =
      _fallback_prediction := by
  unfold predict at hm ⊢
  by_cases hl : lms.isEmpty
  · rw [if_pos hl]
  · rw [if_neg hl] at hm ⊢
    cases hsel : _select_anchor lms with
    | none => rfl
    | some a =>
      rw [hsel] at hm
      cases halat : a.lat with
      | none => simp only [halat]
      | some alat =>
        exfalso
        simp only [halat] at hm
        by_cases hd : (_get_primary_direction comps).isSome
        · simp [hd] at hm
        · simp [hd] at hm

/-- C6, counterexample: a landmark with valid coordinates but similarity
exactly 0 is excluded by the `similarity > 0` filter of the primary
selection branch and has no `latitude` key for the secondary branch, so
`predict` takes the fallback even though a candidate with valid
coordinates exists — contradicting the claim that the fallback occurs
only when no candidate with valid coordinates exists. -/
theorem predict_valid_zero_sim_counterexample :
    ((⟨some 22.7201, some 75.8589, none, none, none, some 0⟩ : PredLm).lat).isSome
      = true ∧
    predict (fun a _ => a) 0 0 (fun la lo _ _ => (la, lo)) 15 75
      [⟨some 22.7201, some 75.8589, none, none, none, some 0⟩]
      {} = _fallback_prediction ∧
    _fallback_prediction.confidence = 0 ∧ _fallback_prediction.method = "fallback" :=
  ⟨rfl, by rfl, rfl, rfl⟩

/-- C6, amended: `predict` anchors on the first highest-similarity
candidate (missing similarity counting 0.5) among the landmarks with a
`lat` value and strictly positive similarity — or, when that set is
empty, among the landmarks with a `latitude` value — and returns the
zero-confidence fallback (`method = "fallback"`) exactly when both sets
are empty (in particular on the empty list). -/
theorem predict_anchor_amended (randU : ℚ → ℚ → ℚ) (randB randF : ℚ)
    (offsetFn : ℚ → ℚ → ℚ → ℚ → ℚ × ℚ) (laneMult defaultOffset : ℚ)
    (lms : List PredLm) (comps : AddressComponents) :
    (anchorCandidates lms = [] →
      predict randU randB randF offsetFn laneMult defaultOffset lms comps =
        _fallback_prediction) ∧
    (∀ a, _select_anchor lms = some a →
      a ∈ anchorCandidates lms ∧
      (∀ b ∈ anchorCandidates lms, simD b ≤ simD a) ∧
      (predict randU randB randF offsetFn laneMult defaultOffset lms
        comps).anchorLandmark = some a ∧
      (predict randU randB randF offsetFn laneMult defaultOffset lms
        comps).method ≠ "fallback") := by
  constructor
  · intro hc
    unfold predict
    by_cases hl : lms.isEmpty
    · rw [if_pos hl]
    · rw [if_neg hl]
      have hsel : _select_anchor lms = none := by
        unfold _select_anchor
        rw [hc]
      rw [hsel]
  · intro a ha
    obtain ⟨hmem, hmax⟩ := select_anchor_spec ha
    have hlat := anchorCandidates_lat_isSome a hmem
    obtain ⟨alat, halat⟩ := Option.isSome_iff_exists.1 hlat
    have hne : lms.isEmpty = false := by
      cases lms with
      | nil =>
        rw [show _select_anchor ([] : List PredLm) = none from rfl] at ha
        exact absurd ha (by simp)
      | cons _ _ => rfl
    refine ⟨hmem, hmax, ?_, ?_⟩
    · simp only [predict, hne, Bool.false_eq_true, if_false, ha, halat]
    · simp only [predict, hne, Bool.false_eq_true, if_false, ha, halat]
      by_cases hd : (_get_primary_direction comps).isSome
      · simp [hd]
      · simp [hd]

/-- C6, witness: the amended theorem applied to the empty landmark list. -/
theorem predict_anchor_amended_witness :
    predict (fun a _ => a) 0 0 (fun la lo _ _ => (la, lo)) 15 75 []
      {} = _fallback_prediction :=
  (predict_anchor_amended (fun a _ => a) 0 0 (fun la lo _ _ => (la, lo)) 15 75 []
    {}).1 rfl

/-- C10: whenever `predict` takes its fallback branch (`method =
"fallback"`), the returned coordinates are exactly (0, 0) with zero
offset and bearing — a point `is_within_india` rejects, and not the
country centroid (20.5937, 78.9629). -/
theorem predict_fallback_off_india (randU : ℚ → ℚ → ℚ) (randB randF : ℚ)
    (offsetFn : ℚ → ℚ → ℚ → ℚ → ℚ × ℚ) (laneMult defaultOffset : ℚ)
    (lms : List PredLm) (comps : AddressComponents)
    (hm : (predict randU randB randF offsetFn laneMult defaultOffset lms
      comps).method = "fallback") :
    (predict randU randB randF offsetFn laneMult defaultOffset lms comps).lat = 0 ∧
    (predict randU randB randF offsetFn laneMult defaultOffset lms comps).lng = 0 ∧
    (predict randU randB randF offsetFn laneMult defaultOffset lms
      comps).offsetAppliedM = 0 ∧
    (predict randU randB randF offsetFn laneMult defaultOffset lms
      comps).bearingAppliedDeg = 0 ∧
    is_within_india
      (predict randU randB randF offsetFn laneMult defaultOffset lms comps).lat
      (predict randU randB randF offsetFn laneMult defaultOffset lms comps).lng
      = false ∧
    ¬((predict randU randB randF offsetFn laneMult defaultOffset lms comps).lat =
        _get_india_fallback.latitude ∧
      (predict randU randB randF offsetFn laneMult defaultOffset lms comps).lng =
        _get_india_fallback.longitude) := by
  rw [predict_method_fallback_eq randU randB randF offsetFn laneMult defaultOffset
    lms comps hm]
  refine ⟨rfl, rfl, rfl, rfl, by norm_num [is_within_india, _fallback_prediction], ?_⟩
  intro hc
  have h0 : (0 : ℚ) = 20.5937 := hc.1
  norm_num at h0

/-- C10, witness: the theorem applied to the empty landmark list. -/
theorem predict_fallback_off_india_witness :
    (predict (fun a _ => a) 0 0 (fun la lo _ _ => (la, lo)) 15 75 [] {}).lat = 0 ∧
    (predict (fun a _ => a) 0 0 (fun la lo _ _ => (la, lo)) 15 75 [] {}).lng = 0 ∧
    (predict (fun a _ => a) 0 0 (fun la lo _ _ => (la, lo)) 15 75 []
      {}).offsetAppliedM = 0 ∧
    (predict (fun a _ => a) 0 0 (fun la lo _ _ => (la, lo)) 15 75 []
      {}).bearingAppliedDeg = 0 ∧
    is_within_india
      (predict (fun a _ => a) 0 0 (fun la lo _ _ => (la, lo)) 15 75 [] {}).lat
      (predict (fun a _ => a) 0 0 (fun la lo _ _ => (la, lo)) 15 75 [] {}).lng
      = false ∧
    ¬((predict (fun a _ => a) 0 0 (fun la lo _ _ => (la, lo)) 15 75 [] {}).lat =
        _get_india_fallback.latitude ∧
      (predict (fun a _ => a) 0 0 (fun la lo _ _ => (la, lo)) 15 75 [] {}).lng =
        _get_india_fallback.longitude) :=
  predict_fallback_off_india (fun a _ => a) 0 0 (fun la lo _ _ => (la, lo)) 15 75 []
    {} rfl

/-! ## C8: bounds of the two confidence scorers -/

/-- C8: for every input — including all-empty input — the
component-weighted scorer of confidence_scorer.py returns a score in
[0, 1], and the source-based scorer of confidence.py returns a score in
[0.05, 0.99]; both bounds hold for every abstracted exponential-decay
function and building-number predicate. -/
theorem confidence_scorer_bounds (expFn : ℚ → ℚ) (nlpConf : ℚ)
    (landmarkScores : List ℚ) (geo : GeoFeaturesCS) (densityScore : ℚ)
    (hasBldg : String → Bool) (n : NormalizedIn) (lms : List LandmarkIn)
    (g : GeoResultIn) :
    (0 ≤ score_component_based expFn nlpConf landmarkScores geo densityScore ∧
     score_component_based expFn nlpConf landmarkScores geo densityScore ≤ 1) ∧
    (1/20 ≤ score_source_based hasBldg n lms g ∧
     score_source_based hasBldg n lms g ≤ 99/100) := by
  have h0 : roundTo 3 (0 : ℚ) = 0 := by norm_num [roundTo, round_eq]
  have h1 : roundTo 3 (1 : ℚ) = 1 := by norm_num [roundTo, round_eq]
  have h2 : roundTo 3 (1/20 : ℚ) = 1/20 := by norm_num [roundTo, round_eq]
  have h3 : roundTo 3 (99/100 : ℚ) = 99/100 := by norm_num [roundTo, round_eq]
  unfold score_component_based score_source_based
  refine ⟨⟨?_, ?_⟩, ?_, ?_⟩
  · calc (0 : ℚ) = roundTo 3 0 := h0.symm
      _ ≤ _ := roundTo_mono (le_max_left _ _)
  · refine le_trans (roundTo_mono (max_le (by norm_num) (min_le_left _ _))) ?_
    rw [h1]
  · calc (1/20 : ℚ) = roundTo 3 (1/20) := h2.symm
      _ ≤ _ := roundTo_mono (le_max_left _ _)
  · refine le_trans (roundTo_mono (max_le (by norm_num) (min_le_left _ _))) ?_
    rw [h3]

/-! ## C9: idempotence of normalization on canonical text -/

/-- C9: for text already in canonical form (a fixed point of the
normalizer's text pipeline), applying `normalize` to the normalized text
yields the same normalized text: `normalize(normalize(x)) == normalize(x)`.
The extracted components (pincode, state, city) are read from the text
without modifying it, so the equation concerns exactly this pipeline. -/
theorem normalize_idempotent_on_canonical (x : String)
    (h : normalizeText x = x) :
    normalizeText (normalizeText x) = normalizeText x := by
  rw [h]
  exact h

/-- C9, witness: a concrete canonical address text — already lowercased,
expanded and comma-normalized — is a fixed point of the pipeline, and the
theorem applies to it. -/
theorem normalize_idempotent_witness :
    normalizeText "opposite shiv temple, near railway station, mumbai 400069" =
      "opposite shiv temple, near railway station, mumbai 400069" ∧
    normalizeText
        (normalizeText "opposite shiv temple, near railway station, mumbai 400069") =
      normalizeText "opposite shiv temple, near railway station, mumbai 400069" :=
  ⟨by decide, normalize_idempotent_on_canonical _ (by decide)⟩

/-! ## C7: "near"-direction prediction stays within 100 m -/

theorem radiansR_degreesR (z : ℝ) : radiansR (degreesR z) = z := by
  unfold radiansR degreesR
  have := Real.pi_ne_zero
  field_simp

theorem radiansR_sub (a b : ℝ) : radiansR (a - b) = radiansR a - radiansR b := by
  unfold radiansR
  ring

theorem sin_half_sq (t : ℝ) : Real.sin (t / 2) ^ 2 = (1 - Real.cos t) / 2 := by
  have hc := Real.cos_sq (t / 2)
  have hs := Real.sin_sq_add_cos_sq (t / 2)
  have h2 : 2 * (t / 2) = t := by ring
  rw [h2] at hc
  linarith

theorem cos_pyAtan2 {y x r : ℝ} (hr : 0 < r) (hxy : x ^ 2 + y ^ 2 = r ^ 2) :
    Real.cos (pyAtan2 y x) = x / r := by
  have hsq : ∀ x' : ℝ, x' ≠ 0 → 1 + (y / x') ^ 2 = (x' ^ 2 + y ^ 2) / x' ^ 2 := by
    intro x' hx'
    field_simp
  unfold pyAtan2
  by_cases hx : 0 < x
  · rw [if_pos hx, Real.cos_arctan, hsq x (ne_of_gt hx), hxy]
    rw [Real.sqrt_div (sq_nonneg r), Real.sqrt_sq hr.le, Real.sqrt_sq hx.le]
    rw [one_div_div]
  · rw [if_neg hx]
    by_cases hx2 : x < 0
    · have hxn : x ≠ 0 := ne_of_lt hx2
      have hbase : Real.cos (Real.arctan (y / x)) = r / (-x) / (r / (-x)) * (-x) / r := by
        rw [Real.cos_arctan, hsq x hxn, hxy]
        rw [Real.sqrt_div (sq_nonneg r), Real.sqrt_sq hr.le, Real.sqrt_sq_eq_abs,
          abs_of_neg hx2]
        field_simp
      have hcval : Real.cos (Real.arctan (y / x)) = -x / r := by
        rw [hbase]
        have hnx : (0 : ℝ) < -x := by linarith
        field_simp
      rw [if_pos hx2]
      by_cases hy : 0 ≤ y
      · rw [if_pos hy, Real.cos_add, Real.cos_pi, Real.sin_pi, hcval]
        ring
      · rw [if_neg hy, Real.cos_sub, Real.cos_pi, Real.sin_pi, hcval]
        ring
    · have hx0 : x = 0 := le_antisymm (not_lt.1 hx) (not_lt.1 hx2)
      subst hx0
      rw [if_neg hx2]
      by_cases hy : 0 < y
      · rw [if_pos hy, Real.cos_pi_div_two]
        simp
      · have hy' : y < 0 := by
          rcases lt_trichotomy y 0 with h | h | h
          · exact h
          · exfalso
            rw [h] at hxy
            simp at hxy
            nlinarith
          · exact absurd h hy
        rw [if_neg hy, if_pos hy', Real.cos_neg, Real.cos_pi_div_two]
        simp
end Spec2Proof
namespace Spec2Proof
theorem hav_core (p1 th dl s A a : ℝ) (hcp : 0 < Real.cos p1)
    (hd0 : 0 ≤ dl) (hd1 : dl ≤ 1)
    (hs : s = Real.sin p1 * Real.cos dl + Real.cos p1 * Real.sin dl * Real.cos th)
    (hA : A = pyAtan2 (Real.sin th * Real.sin dl * Real.cos p1)
      (Real.cos dl - Real.sin p1 * Real.sin (Real.arcsin s)))
    (ha : a = Real.sin ((Real.arcsin s - p1) / 2) ^ 2
      + Real.cos p1 * Real.cos (Real.arcsin s) * Real.sin (A / 2) ^ 2) :
    2 * pyAtan2 (Real.sqrt a) (Real.sqrt (1 - a)) = dl := by
  have hp := Real.sin_sq_add_cos_sq p1
  have hd := Real.sin_sq_add_cos_sq dl
  have ht := Real.sin_sq_add_cos_sq th
  have hs1 : s ≤ 1 := by
    nlinarith [sq_nonneg (Real.sin p1 - Real.cos dl),
      sq_nonneg (Real.cos p1 - Real.sin dl * Real.cos th),
      sq_nonneg (Real.sin dl * Real.sin th)]
  have hs2 : -1 ≤ s := by
    nlinarith [sq_nonneg (Real.sin p1 + Real.cos dl),
      sq_nonneg (Real.cos p1 + Real.sin dl * Real.cos th),
      sq_nonneg (Real.sin dl * Real.sin th)]
  have hsin2 : Real.sin (Real.arcsin s) = s := Real.sin_arcsin hs2 hs1
  rw [hsin2] at hA
  have hcos2 : Real.cos (Real.arcsin s) = Real.sqrt (1 - s ^ 2) := Real.cos_arcsin s
  have h1s : 0 ≤ 1 - s ^ 2 := by nlinarith
  have hcp2nn : 0 ≤ Real.cos (Real.arcsin s) := Real.cos_arcsin_nonneg s
  have e1 : Real.cos dl - Real.sin p1 * s
      = Real.cos p1
        * (Real.cos p1 * Real.cos dl - Real.sin p1 * Real.sin dl * Real.cos th) := by
    rw [hs]
    linear_combination (-(Real.cos dl)) * hp
  have e2 : (Real.cos p1 * Real.cos dl - Real.sin p1 * Real.sin dl * Real.cos th) ^ 2
      + (Real.sin th * Real.sin dl) ^ 2 = 1 - s ^ 2 := by
    rw [hs]
    linear_combination (Real.cos dl ^ 2 + Real.sin dl ^ 2 * Real.cos th ^ 2) * hp
      + Real.sin dl ^ 2 * ht + hd
  have hkey : (Real.cos dl - Real.sin p1 * s) ^ 2
      + (Real.sin th * Real.sin dl * Real.cos p1) ^ 2
      = (Real.cos p1 * Real.cos (Real.arcsin s)) ^ 2 := by
    have hstep : (Real.cos dl - Real.sin p1 * s) ^ 2
        + (Real.sin th * Real.sin dl * Real.cos p1) ^ 2
        = Real.cos p1 ^ 2
          * ((Real.cos p1 * Real.cos dl - Real.sin p1 * Real.sin dl * Real.cos th) ^ 2
            + (Real.sin th * Real.sin dl) ^ 2) := by
      rw [e1]
      ring
    rw [hstep, e2, hcos2, mul_pow, Real.sq_sqrt h1s]
  have hA2 : a = (1 - Real.cos dl) / 2 := by
    rw [ha, sin_half_sq, sin_half_sq, Real.cos_sub, hsin2]
    by_cases hz : Real.cos (Real.arcsin s) = 0
    · have hkey0 : (Real.cos dl - Real.sin p1 * s) ^ 2
          + (Real.sin th * Real.sin dl * Real.cos p1) ^ 2 = 0 := by
        rw [hkey, hz]
        ring
      have hx2 : (Real.cos dl - Real.sin p1 * s) ^ 2 = 0 := by
        have hq1 := sq_nonneg (Real.cos dl - Real.sin p1 * s)
        have hq2 := sq_nonneg (Real.sin th * Real.sin dl * Real.cos p1)
        linarith
      have hx0 : Real.cos dl - Real.sin p1 * s = 0 := sq_eq_zero_iff.1 hx2
      rw [hz]
      linear_combination (1 / 2) * hx0
    · have hcp2pos : 0 < Real.cos (Real.arcsin s) := lt_of_le_of_ne hcp2nn (Ne.symm hz)
      have hrpos : 0 < Real.cos p1 * Real.cos (Real.arcsin s) := mul_pos hcp hcp2pos
      have hcA : Real.cos A = (Real.cos dl - Real.sin p1 * s)
          / (Real.cos p1 * Real.cos (Real.arcsin s)) := by
        rw [hA]
        exact cos_pyAtan2 hrpos hkey
      rw [hcA]
      field_simp
      ring
  have hdl2 : Real.sin (dl / 2) ^ 2 = a := by
    rw [hA2, ← sin_half_sq]
  have hsinnn : 0 ≤ Real.sin (dl / 2) :=
    Real.sin_nonneg_of_nonneg_of_le_pi (by linarith)
      (by linarith [Real.pi_gt_three])
  have hsqa : Real.sqrt a = Real.sin (dl / 2) := by
    rw [← hdl2, Real.sqrt_sq hsinnn]
  have hcospos : 0 < Real.cos (dl / 2) := by
    apply Real.cos_pos_of_mem_Ioo
    rw [Set.mem_Ioo]
    constructor
    · linarith [Real.pi_gt_three]
    · linarith [Real.pi_gt_three]
  have h1a : 1 - a = Real.cos (dl / 2) ^ 2 := by
    have hpc := Real.sin_sq_add_cos_sq (dl / 2)
    linarith [hdl2]
  have hsqb : Real.sqrt (1 - a) = Real.cos (dl / 2) := by
    rw [h1a, Real.sqrt_sq hcospos.le]
  rw [hsqa, hsqb]
  unfold pyAtan2
  rw [if_pos hcospos, ← Real.tan_eq_sin_div_cos,
    Real.arctan_tan (by linarith [Real.pi_gt_three]) (by linarith [Real.pi_gt_three])]
  ring

/-- On the sphere the haversine distance from a point to its geodesic
offset equals the offset distance: composing `offset_coordinate` with
`haversine_distance_m` is the identity on the distance (for a start
latitude with positive cosine and a distance of at most one Earth
radius). -/
theorem haversine_offset_eq (lat lon bearing d : ℝ)
    (hcos : 0 < Real.cos (radiansR lat)) (hd0 : 0 ≤ d)
    (hd1 : d ≤ EARTH_RADIUS_M) :
    haversine_distance_m lat lon (offset_coordinate lat lon bearing d).1
      (offset_coordinate lat lon bearing d).2 = d := by
  have hR : (0 : ℝ) < EARTH_RADIUS_M := by norm_num [EARTH_RADIUS_M]
  have hδ0 : 0 ≤ d / EARTH_RADIUS_M := div_nonneg hd0 hR.le
  have hδ1 : d / EARTH_RADIUS_M ≤ 1 := (div_le_one hR).2 hd1
  unfold offset_coordinate haversine_distance_m
  dsimp only
  rw [radiansR_sub, radiansR_sub, radiansR_degreesR, radiansR_degreesR,
    add_sub_cancel_left]
  rw [hav_core (radiansR lat) (radiansR bearing) (d / EARTH_RADIUS_M) _ _ _ hcos
    hδ0 hδ1 rfl rfl rfl]
  field_simp

/-- C7: for every random draw (bearing, uniform offset draw within its
bounds), `predict` with the single anchor (22.7201, 75.8589), similarity
0.87 and direction "near" yields confidence ≥ 0.87 (it is 0.95: the
0.87 anchor similarity plus the +0.10 direction bonus, capped at 0.95),
and the coordinates — `offset_coordinate` applied to the bearing and
offset distance that `predict` records in its result — lie within 100
meters haversine distance of the anchor, because the "near"
configuration draws the offset from [50, 100] with no lane
contribution. -/
theorem predict_near_within_100m (randU : ℚ → ℚ → ℚ) (randB randF : ℚ)
    (offsetFn : ℚ → ℚ → ℚ → ℚ → ℚ × ℚ)
    (hU : ∀ a b : ℚ, a ≤ b → a ≤ randU a b ∧ randU a b ≤ b) :
    (87/100 : ℚ) ≤ (predict randU randB randF offsetFn LANE_OFFSET_MULTIPLIER 75
      [⟨some 22.7201, some 75.8589, none, none, none, some 0.87⟩]
      ⟨["near"], [], [], []⟩).confidence ∧
    haversine_distance_m 22.7201 75.8589
      (offset_coordinate 22.7201 75.8589
        (((predict randU randB randF offsetFn LANE_OFFSET_MULTIPLIER 75
            [⟨some 22.7201, some 75.8589, none, none, none, some 0.87⟩]
            ⟨["near"], [], [], []⟩).bearingAppliedDeg : ℚ) : ℝ)
        (((predict randU randB randF offsetFn LANE_OFFSET_MULTIPLIER 75
            [⟨some 22.7201, some 75.8589, none, none, none, some 0.87⟩]
            ⟨["near"], [], [], []⟩).offsetAppliedM : ℚ) : ℝ)).1
      (offset_coordinate 22.7201 75.8589
        (((predict randU randB randF offsetFn LANE_OFFSET_MULTIPLIER 75
            [⟨some 22.7201, some 75.8589, none, none, none, some 0.87⟩]
            ⟨["near"], [], [], []⟩).bearingAppliedDeg : ℚ) : ℝ)
        (((predict randU randB randF offsetFn LANE_OFFSET_MULTIPLIER 75
            [⟨some 22.7201, some 75.8589, none, none, none, some 0.87⟩]
            ⟨["near"], [], [], []⟩).offsetAppliedM : ℚ) : ℝ)).2 ≤ 100 := by
  obtain ⟨hlo, hhi⟩ := hU 50 100 (by norm_num)
  have hdir : _get_primary_direction ⟨["near"], [], [], []⟩ = some "near" := rfl
  have hsel : _select_anchor
      [⟨some 22.7201, some 75.8589, none, none, none, some 0.87⟩] =
      some ⟨some 22.7201, some 75.8589, none, none, none, some 0.87⟩ := by
    norm_num [_select_anchor, anchorCandidates]
  have hpd : predict randU randB randF offsetFn LANE_OFFSET_MULTIPLIER 75
      [⟨some 22.7201, some 75.8589, none, none, none, some 0.87⟩]
      ⟨["near"], [], [], []⟩
      = ⟨(offsetFn 22.7201 75.8589 (pyModQ randB 360) (randU 50 100)).1,
         (offsetFn 22.7201 75.8589 (pyModQ randB 360) (randU 50 100)).2,
         _calculate_confidence
           ⟨some 22.7201, some 75.8589, none, none, none, some 0.87⟩
           (some "near") ⟨["near"], [], [], []⟩,
         some ⟨some 22.7201, some 75.8589, none, none, none, some 0.87⟩,
         some "near", randU 50 100, pyModQ randB 360, "landmark_offset"⟩ := by
    simp [predict, hsel, hdir, _calculate_offset, optTruthy, lookupDirConfig,
      RELATIVE_DIRECTION_CONFIG]
  rw [hpd]
  constructor
  · have ho : optTruthy (some "near") = some "near" := rfl
    norm_num [_calculate_confidence, ho, min_def]
  · have hcos : 0 < Real.cos (radiansR (22.7201 : ℝ)) := by
      apply Real.cos_pos_of_mem_Ioo
      rw [Set.mem_Ioo]
      unfold radiansR
      constructor
      · nlinarith [Real.pi_pos]
      · nlinarith [Real.pi_pos]
    have hd0 : (0 : ℝ) ≤ ((randU 50 100 : ℚ) : ℝ) := by
      have : (0 : ℚ) ≤ randU 50 100 := by linarith
      exact_mod_cast this
    have hd1 : ((randU 50 100 : ℚ) : ℝ) ≤ EARTH_RADIUS_M := by
      have h100 : ((randU 50 100 : ℚ) : ℝ) ≤ 100 := by exact_mod_cast hhi
      have : (100 : ℝ) ≤ EARTH_RADIUS_M := by norm_num [EARTH_RADIUS_M]
      linarith
    rw [haversine_offset_eq 22.7201 75.8589 ((pyModQ randB 360 : ℚ) : ℝ)
      ((randU 50 100 : ℚ) : ℝ) hcos hd0 hd1]
    exact_mod_cast hhi


/-- C7, witness: the theorem applied to the concrete draw functions that
return the lower bound of each uniform range and bearing 0. -/
theorem predict_near_within_100m_witness :
    (87/100 : ℚ) ≤ (predict (fun a _ => a) 0 0 (fun la lo _ _ => (la, lo)) LANE_OFFSET_MULTIPLIER 75
      [⟨some 22.7201, some 75.8589, none, none, none, some 0.87⟩]
      ⟨["near"], [], [], []⟩).confidence ∧
    haversine_distance_m 22.7201 75.8589
      (offset_coordinate 22.7201 75.8589
        (((predict (fun a _ => a) 0 0 (fun la lo _ _ => (la, lo)) LANE_OFFSET_MULTIPLIER 75
            [⟨some 22.7201, some 75.8589, none, none, none, some 0.87⟩]
            ⟨["near"], [], [], []⟩).bearingAppliedDeg : ℚ) : ℝ)
        (((predict (fun a _ => a) 0 0 (fun la lo _ _ => (la, lo)) LANE_OFFSET_MULTIPLIER 75
            [⟨some 22.7201, some 75.8589, none, none, none, some 0.87⟩]
            ⟨["near"], [], [], []⟩).offsetAppliedM : ℚ) : ℝ)).1
      (offset_coordinate 22.7201 75.8589
        (((predict (fun a _ => a) 0 0 (fun la lo _ _ => (la, lo)) LANE_OFFSET_MULTIPLIER 75
            [⟨some 22.7201, some 75.8589, none, none, none, some 0.87⟩]
            ⟨["near"], [], [], []⟩).bearingAppliedDeg : ℚ) : ℝ)
        (((predict (fun a _ => a) 0 0 (fun la lo _ _ => (la, lo)) LANE_OFFSET_MULTIPLIER 75
            [⟨some 22.7201, some 75.8589, none, none, none, some 0.87⟩]
            ⟨["near"], [], [], []⟩).offsetAppliedM : ℚ) : ℝ)).2 ≤ 100 :=
  predict_near_within_100m (fun a _ => a) 0 0 (fun la lo _ _ => (la, lo))
    (fun a _ h => ⟨le_refl a, h⟩)

end Spec2Proof
